import Mathlib

/-!
Shallow embedding of the schema-validation and query-construction core of the
knowledge-storage graph access layer, together with theorems settling the
specification claims.

Sources embedded:
* `knowledge_storage_mcp/db/schema.py` — `SchemaManager.validate_entity`,
  `SchemaManager.validate_relationship`, the default type registries.
* `knowledge_storage_mcp/api/entities.py` — entity listing / lookup query
  construction, pagination, `create_entity`.
* `knowledge_storage_mcp/api/relationships.py` — `create_relationship`,
  `get_relationship`, `delete_relationship`, `list_relationships`, `find_path`.
* `knowledge_storage_mcp/api/queries.py` — `search_entities`, `find_paths`,
  `get_entity_with_tier` (tier projection).

Python dictionaries are modelled as association lists with first-match lookup
and in-place update (`dictInsert` keeps the position of an existing key, as
CPython dicts do); Python runtime values are the inductive `Value`; a Python
`TypeError` raised during a comparison is the `Except` error path.
-/

namespace KSMCP

/-- A Python runtime value as it appears in a property payload. -/
inductive Value where
  | str (s : String)
  | num (n : Int)
  | boolean (b : Bool)
  | arr (elems : List Value)
  | obj (fields : List (String × Value))

mutual

/-- Python `==` on values (structural; used by `in` on enum lists). -/
def valueBeq : Value → Value → Bool
  | .str a, .str b => a == b
  | .num a, .num b => a == b
  | .boolean a, .boolean b => a == b
  | .arr a, .arr b => valueListBeq a b
  | .obj a, .obj b => valuePairsBeq a b
  | _, _ => false

def valueListBeq : List Value → List Value → Bool
  | [], [] => true
  | a :: as, b :: bs => valueBeq a b && valueListBeq as bs
  | _, _ => false

def valuePairsBeq : List (String × Value) → List (String × Value) → Bool
  | [], [] => true
  | (ka, va) :: as, (kb, vb) :: bs => ka == kb && valueBeq va vb && valuePairsBeq as bs
  | _, _ => false

end

mutual

/-- Python `str()` of a value (`repr` for elements of containers). -/
def pyRepr : Value → String
  | .str s => "'" ++ s ++ "'"
  | .num n => toString n
  | .boolean b => if b then "True" else "False"
  | .arr l => "[" ++ String.intercalate ", " (pyReprList l) ++ "]"
  | .obj l => "\x7b" ++ String.intercalate ", " (pyReprPairs l) ++ "\x7d"

def pyReprList : List Value → List String
  | [] => []
  | v :: vs => pyRepr v :: pyReprList vs

def pyReprPairs : List (String × Value) → List String
  | [] => []
  | (k, v) :: vs => ("'" ++ k ++ "': " ++ pyRepr v) :: pyReprPairs vs

end

/-- Python `str()` at top level: a string prints without quotes. -/
def pyStr : Value → String
  | .str s => s
  | v => pyRepr v

/-- Python `str.lower()`, character by character. -/
def pyToLower (s : String) : String :=
  ⟨s.data.map Char.toLower⟩

/-- Python `str.endswith(post)`: the characters of `post` are a suffix of the
characters of `s`. -/
def pyEndsWith (s post : String) : Bool :=
  List.isSuffixOf post.data s.data

/-- A Python exception escaping the validation code (a `TypeError` from an
order comparison or `len()` on an unsupported operand). -/
inductive PyErr where
  | typeError
  deriving Repr, DecidableEq

/-- First-match lookup in an association list (CPython dict `get`; a dict
coming from Python has pairwise distinct keys, so the first match is the
only one). -/
def dictLookup : List (String × α) → String → Option α
  | [], _ => none
  | p :: m, k => if p.1 = k then some p.2 else dictLookup m k

/-- CPython dict `in` on keys. -/
def dictContains (m : List (String × α)) (k : String) : Bool :=
  (dictLookup m k).isSome

/-- CPython dict item assignment: an existing key keeps its position and gets
the new value, a new key is appended at the end. -/
def dictInsert : List (String × α) → String → α → List (String × α)
  | [], k, v => [(k, v)]
  | p :: m, k, v => if p.1 = k then (k, v) :: m else p :: dictInsert m k v

/-- CPython `dict.update`: insert every pair of `l`, left to right, so on a
key collision the entry of `l` overwrites the entry of `m`. -/
def dictUpdate : List (String × α) → List (String × α) → List (String × α)
  | m, [] => m
  | m, p :: l => dictUpdate (dictInsert m p.1 p.2) l

/-- The keys of a dict, in iteration order. -/
def dictKeys (m : List (String × α)) : List String :=
  m.map Prod.fst

/-- One property constraint of a type definition (`schema.py` JSON shape). -/
structure PropDef where
  type : Option String := none
  required : Bool := false
  enum : Option (List Value) := none
  min : Option Int := none
  max : Option Int := none
  minLength : Option Int := none
  maxLength : Option Int := none

/-- An entity type definition (`schema.py`): optional parent, property dict. -/
structure EntityTypeDef where
  inherits : Option String := none
  properties : List (String × PropDef) := []

/-- A relationship type definition (`schema.py`): allowed endpoint type names
and a property dict. A missing `source_types`/`target_types` key (the Python
dict may lack it) is `none`. -/
structure RelationshipTypeDef where
  source_types : Option (List String) := none
  target_types : Option (List String) := none
  properties : List (String × PropDef) := []

/-- The default entity type registry seeded by `SchemaManager._load_schemas`. -/
def defaultEntityTypes : List (String × EntityTypeDef) :=
  [ ("Entity",
      { properties :=
          [ ("id", { type := some "string", required := true }),
            ("name", { type := some "string", required := true }),
            ("description", { type := some "string", required := false }) ] }),
    ("Concept",
      { inherits := some "Entity",
        properties :=
          [ ("domain", { type := some "string", required := true }),
            ("tier",
              { type := some "string",
                enum := some [Value.str "L1", Value.str "L2", Value.str "L3"],
                required := true }) ] }),
    ("Symbol",
      { inherits := some "Entity",
        properties :=
          [ ("notation", { type := some "string", required := true }),
            ("latex", { type := some "string", required := false }),
            ("context", { type := some "string", required := true }) ] }) ]

/-- The default relationship type registry seeded by
`SchemaManager._load_schemas`. -/
def defaultRelationshipTypes : List (String × RelationshipTypeDef) :=
  [ ("REPRESENTS",
      { source_types := some ["Symbol"],
        target_types := some ["Concept"],
        properties :=
          [ ("context", { type := some "string", required := false }),
            ("confidence",
              { type := some "number", min := some 0, max := some 1,
                required := false }) ] }),
    ("RELATES_TO",
      { source_types := some ["Concept"],
        target_types := some ["Concept"],
        properties :=
          [ ("relationship_type", { type := some "string", required := true }),
            ("description", { type := some "string", required := false }) ] }),
    ("APPEARS_IN",
      { source_types := some ["Symbol", "Concept"],
        target_types := some ["Document"],
        properties :=
          [ ("location", { type := some "string", required := false }),
            ("context", { type := some "string", required := false }) ] }) ]

/-- Error message: the entity type is not in the registry. -/
def noEntityTypeMsg (t : String) : String :=
  "Entity type '" ++ t ++ "' does not exist"

/-- Error message: the relationship type is not in the registry. -/
def noRelTypeMsg (t : String) : String :=
  "Relationship type '" ++ t ++ "' does not exist"

/-- Error message: an ancestor named by `inherits` is not in the registry. -/
def parentMissingMsg (p : String) : String :=
  "Parent type '" ++ p ++ "' does not exist"

/-- Error message: a required property is absent from the payload. -/
def requiredMsg (k : String) : String :=
  "Required property '" ++ k ++ "' is missing"

/-- Error message: a payload key is not declared in the (effective) type.
`typeDesc` is `type '…'` for entities, `relationship type '…'` for
relationships. -/
def undeclaredMsg (k typeDesc : String) : String :=
  "Property '" ++ k ++ "' is not defined in schema for " ++ typeDesc

/-- Error message: runtime kind mismatch (`kindName` is `a string`, …). -/
def kindMsg (k kindName : String) : String :=
  "Property '" ++ k ++ "' should be " ++ kindName

/-- Error message: value not in the declared enum. -/
def enumMsg (k : String) (es : List Value) : String :=
  "Property '" ++ k ++ "' should be one of: " ++
    String.intercalate ", " (es.map pyStr)

/-- Error message: numeric value below `min`. -/
def minMsg (k : String) (m : Int) : String :=
  "Property '" ++ k ++ "' should be at least " ++ toString m

/-- Error message: numeric value above `max`. -/
def maxMsg (k : String) (m : Int) : String :=
  "Property '" ++ k ++ "' should be at most " ++ toString m

/-- Error message: string shorter than `minLength`. -/
def minLengthMsg (k : String) (n : Int) : String :=
  "Property '" ++ k ++ "' should have at least " ++ toString n ++ " characters"

/-- Error message: string longer than `maxLength`. -/
def maxLengthMsg (k : String) (n : Int) : String :=
  "Property '" ++ k ++ "' should have at most " ++ toString n ++ " characters"

/-- The source message of `create_relationship`: the endpoint type is not in
the relationship type's allowed source set; it spells out the allowed set. -/
def sourceNotAllowedMsg (s r : String) (allowed : List String) : String :=
  "Source type '" ++ s ++ "' is not allowed for relationship '" ++ r ++
    "'. Allowed types: " ++ String.intercalate ", " allowed

/-- Counterpart of `sourceNotAllowedMsg` for the target endpoint. -/
def targetNotAllowedMsg (s r : String) (allowed : List String) : String :=
  "Target type '" ++ s ++ "' is not allowed for relationship '" ++ r ++
    "'. Allowed types: " ++ String.intercalate ", " allowed

/-- The `while current_type:` loop of `SchemaManager.validate_entity`
(schema.py lines 186-202), made total with fuel. It merges each visited
type's own properties into the accumulator with `dict.update` (so a later —
more ancestral — definition overwrites an earlier one), follows `inherits`,
and appends the missing-parent error and stops when an ancestor name is not
in the registry. The source has no cycle guard: `none` means the loop was
still running when the fuel ran out. -/
def inheritanceWalk (reg : List (String × EntityTypeDef)) :
    Nat → EntityTypeDef → List (String × PropDef) → List String →
    Option (List (String × PropDef) × List String)
  | 0, _, _, _ => none
  | fuel + 1, cur, acc, errs =>
    let acc := dictUpdate acc cur.properties
    match cur.inherits with
    | none => some (acc, errs)
    | some parentName =>
      match dictLookup reg parentName with
      | none => some (acc, errs ++ [parentMissingMsg parentName])
      | some parentDef => inheritanceWalk reg fuel parentDef acc errs

/-- First validation pass (schema.py lines 204-207): one error per property
declared `required` in the effective type and absent from the payload. -/
def requiredErrors (allProps : List (String × PropDef))
    (payload : List (String × Value)) : List String :=
  allProps.filterMap fun p =>
    if p.2.required && !(dictContains payload p.1) then some (requiredMsg p.1)
    else none

/-- Python `isinstance(v, str)`. -/
def isStringVal : Value → Bool
  | .str _ => true
  | _ => false

/-- Python `isinstance(v, (int, float))`; `bool` is a subclass of `int`. -/
def isNumberVal : Value → Bool
  | .num _ => true
  | .boolean _ => true
  | _ => false

/-- Python `isinstance(v, bool)`. -/
def isBooleanVal : Value → Bool
  | .boolean _ => true
  | _ => false

/-- Python `isinstance(v, list)`. -/
def isArrayVal : Value → Bool
  | .arr _ => true
  | _ => false

/-- Python `isinstance(v, dict)`. -/
def isObjectVal : Value → Bool
  | .obj _ => true
  | _ => false

/-- The `elif` chain checking the declared kind (schema.py lines 218-229):
at most one mismatch message. -/
def kindCheck (k : String) (d : PropDef) (v : Value) : List String :=
  if d.type == some "string" then
    if isStringVal v then [] else [kindMsg k "a string"]
  else if d.type == some "number" then
    if isNumberVal v then [] else [kindMsg k "a number"]
  else if d.type == some "boolean" then
    if isBooleanVal v then [] else [kindMsg k "a boolean"]
  else if d.type == some "array" then
    if isArrayVal v then [] else [kindMsg k "an array"]
  else if d.type == some "object" then
    if isObjectVal v then [] else [kindMsg k "an object"]
  else []

/-- The enum membership check (schema.py lines 231-234); Python `in` works on
any value kind, so it never raises. -/
def enumCheck (k : String) (d : PropDef) (v : Value) : List String :=
  match d.enum with
  | some es => if es.any (fun e => valueBeq e v) then [] else [enumMsg k es]
  | none => []

/-- Python `v < m` for a bound `m : int`: numbers compare, `bool` coerces to
0/1, anything else raises `TypeError`. -/
def pyCmpLt : Value → Int → Except PyErr Bool
  | .num n, m => .ok (decide (n < m))
  | .boolean b, m => .ok (decide ((if b then (1 : Int) else 0) < m))
  | _, _ => .error .typeError

/-- Python `v > m`, as `pyCmpLt`. -/
def pyCmpGt : Value → Int → Except PyErr Bool
  | .num n, m => .ok (decide (n > m))
  | .boolean b, m => .ok (decide ((if b then (1 : Int) else 0) > m))
  | _, _ => .error .typeError

/-- Python `len(v)`: defined on strings (character count), lists and dicts;
raises `TypeError` otherwise. -/
def pyLenVal : Value → Except PyErr Int
  | .str s => .ok s.length
  | .arr l => .ok l.length
  | .obj l => .ok l.length
  | _ => .error .typeError

/-- The `min` half of the numeric check (schema.py lines 238-239); the
comparison raises on a non-numeric runtime value. -/
def minCheckE (k : String) (d : PropDef) (v : Value) : Except PyErr (List String) :=
  match d.min with
  | some m =>
    match pyCmpLt v m with
    | .error e => .error e
    | .ok b => .ok (if b then [minMsg k m] else [])
  | none => .ok []

/-- The `max` half of the numeric check. -/
def maxCheckE (k : String) (d : PropDef) (v : Value) : Except PyErr (List String) :=
  match d.max with
  | some m =>
    match pyCmpGt v m with
    | .error e => .error e
    | .ok b => .ok (if b then [maxMsg k m] else [])
  | none => .ok []

/-- The numeric `min`/`max` checks (schema.py lines 236-241), run whenever
the DECLARED kind is number — also when the runtime value is not one, in
which case the comparison raises; `min` is evaluated before `max`, as in the
source. -/
def numCheck (k : String) (d : PropDef) (v : Value) : Except PyErr (List String) :=
  if d.type == some "number" then
    match minCheckE k d v with
    | .error e => .error e
    | .ok e1 =>
      match maxCheckE k d v with
      | .error e => .error e
      | .ok e2 => .ok (e1 ++ e2)
  else .ok []

/-- The `minLength` half of the string length check (schema.py lines
245-246); `len` on a non-sized runtime value raises. -/
def minLengthCheckE (k : String) (d : PropDef) (v : Value) :
    Except PyErr (List String) :=
  match d.minLength with
  | some n =>
    match pyLenVal v with
    | .error e => .error e
    | .ok l => .ok (if l < n then [minLengthMsg k n] else [])
  | none => .ok []

/-- The `maxLength` half of the string length check. -/
def maxLengthCheckE (k : String) (d : PropDef) (v : Value) :
    Except PyErr (List String) :=
  match d.maxLength with
  | some n =>
    match pyLenVal v with
    | .error e => .error e
    | .ok l => .ok (if l > n then [maxLengthMsg k n] else [])
  | none => .ok []

/-- The string length checks (schema.py lines 243-248), run whenever the
DECLARED kind is string; `len` on a non-sized runtime value raises;
`minLength` is evaluated before `maxLength`, as in the source. -/
def lenCheck (k : String) (d : PropDef) (v : Value) : Except PyErr (List String) :=
  if d.type == some "string" then
    match minLengthCheckE k d v with
    | .error e => .error e
    | .ok e1 =>
      match maxLengthCheckE k d v with
      | .error e => .error e
      | .ok e2 => .ok (e1 ++ e2)
  else .ok []

/-- The per-payload-key body of the second validation loop (schema.py lines
210-248): undeclared key → one error and `continue`; declared key → kind,
enum, numeric and length checks accumulate, any raised `TypeError`
propagates. -/
def checkItem (allProps : List (String × PropDef)) (typeDesc k : String)
    (v : Value) : Except PyErr (List String) :=
  match dictLookup allProps k with
  | none => .ok [undeclaredMsg k typeDesc]
  | some d =>
    match numCheck k d v with
    | .error e => .error e
    | .ok numErrs =>
      match lenCheck k d v with
      | .error e => .error e
      | .ok lenErrs => .ok (kindCheck k d v ++ enumCheck k d v ++ numErrs ++ lenErrs)

/-- The second validation loop over the payload items, in iteration order;
an exception aborts the remaining items (schema.py lines 210-248). -/
def checkItems (allProps : List (String × PropDef)) (typeDesc : String) :
    List (String × Value) → Except PyErr (List String)
  | [] => .ok []
  | (k, v) :: rest =>
    match checkItem allProps typeDesc k v with
    | .error e => .error e
    | .ok errs =>
      match checkItems allProps typeDesc rest with
      | .error e => .error e
      | .ok more => .ok (errs ++ more)

/-- `SchemaManager.validate_entity` (schema.py lines 167-250). `none` means
the inheritance loop did not terminate within `fuel` iterations; `some
(.error e)` means a `TypeError` escaped; `some (.ok (ok, errors))` is the
source's `(is_valid, error_messages)` pair. -/
def validate_entity (reg : List (String × EntityTypeDef)) (entity_type : String)
    (properties : List (String × Value)) (fuel : Nat) :
    Option (Except PyErr (Bool × List String)) :=
  match dictLookup reg entity_type with
  | none => some (.ok (false, [noEntityTypeMsg entity_type]))
  | some tdef =>
    match inheritanceWalk reg fuel tdef [] [] with
    | none => none
    | some (allProps, inhErrs) =>
      let errs := inhErrs ++ requiredErrors allProps properties
      match checkItems allProps ("type '" ++ entity_type ++ "'") properties with
      | .error e => some (.error e)
      | .ok itemErrs => some (.ok ((errs ++ itemErrs).isEmpty, errs ++ itemErrs))

/-- The source endpoint-type pre-check of `validate_relationship` (schema.py
lines 273-278): a violation spelling out the allowed set when the resolved
source type is not a member. -/
def srcErrsOf (tdef : RelationshipTypeDef) (relationship_type source_type : String) :
    List String :=
  match tdef.source_types with
  | some allowed =>
      if allowed.contains source_type then []
      else [sourceNotAllowedMsg source_type relationship_type allowed]
  | none => []

/-- The target endpoint-type pre-check of `validate_relationship` (schema.py
lines 280-285). -/
def tgtErrsOf (tdef : RelationshipTypeDef) (relationship_type target_type : String) :
    List String :=
  match tdef.target_types with
  | some allowed =>
      if allowed.contains target_type then []
      else [targetNotAllowedMsg target_type relationship_type allowed]
  | none => []

/-- `SchemaManager.validate_relationship` (schema.py lines 252-334): endpoint
type membership pre-checks, then the same required/declared property passes
over the relationship type's own (non-inherited) properties. -/
def validate_relationship (rels : List (String × RelationshipTypeDef))
    (relationship_type source_type target_type : String)
    (properties : List (String × Value)) : Except PyErr (Bool × List String) :=
  match dictLookup rels relationship_type with
  | none => .ok (false, [noRelTypeMsg relationship_type])
  | some tdef =>
    let srcErrs := srcErrsOf tdef relationship_type source_type
    let tgtErrs := tgtErrsOf tdef relationship_type target_type
    let reqErrs := requiredErrors tdef.properties properties
    match checkItems tdef.properties
        ("relationship type '" ++ relationship_type ++ "'") properties with
    | .error e => .error e
    | .ok itemErrs =>
      let errs := srcErrs ++ tgtErrs ++ reqErrs ++ itemErrs
      .ok (errs.isEmpty, errs)

/-- A built graph query: query text plus named-parameter map. -/
structure BuiltQuery where
  text : String
  params : List (String × Value)

/-- Page normalization shared by both list endpoints (entities.py lines
77-78, relationships.py lines 370-371): a negative page becomes 0. -/
def normPage (page : Int) : Int :=
  if page < 0 then 0 else page

/-- Page-size normalization (entities.py lines 79-80, relationships.py lines
372-373): non-positive or above `MAX_PAGE_SIZE = 100` becomes
`DEFAULT_PAGE_SIZE = 20`. -/
def normPageSize (page_size : Int) : Int :=
  if page_size ≤ 0 ∨ page_size > 100 then 20 else page_size

/-- The pagination metadata dict both list endpoints return (entities.py
lines 129-143, relationships.py lines 452-467): `page` and `page_size` are
already normalized, `total_count` is the count-query result. -/
structure Pagination where
  page : Int
  page_size : Int
  total_count : Int
  total_pages : Int
  has_next : Bool
  has_prev : Bool

/-- The duplicated metadata computation of the two list endpoints:
`total_pages = (total_count + page_size - 1) // page_size if total_count > 0
else 0`, `has_next = page < total_pages - 1`, `has_prev = page > 0`
(Python `//` is floor division, `Int.fdiv`). -/
def paginationMeta (page page_size total_count : Int) : Pagination :=
  let total_pages :=
    if total_count > 0 then Int.fdiv (total_count + page_size - 1) page_size else 0
  { page := page, page_size := page_size, total_count := total_count,
    total_pages := total_pages,
    has_next := decide (page < total_pages - 1),
    has_prev := decide (page > 0) }

/-- The pagination block of the entity list endpoint (entities.py lines
76-83 and 128-143). -/
def list_entities_pagination (page page_size total_count : Int) : Pagination :=
  paginationMeta (normPage page) (normPageSize page_size) total_count

/-- The pagination block of `list_relationships` (relationships.py lines
369-381 and 452-467); the source lines are an exact duplicate of the entity
ones. -/
def list_relationships_pagination (page page_size total_count : Int) : Pagination :=
  paginationMeta (normPage page) (normPageSize page_size) total_count

/-- The label fragment a truthy caller-supplied entity type contributes to
the MATCH pattern (entities.py lines 90-91 and 188-189): the raw string,
prefixed with a colon. -/
def entityTypeFragment (entity_type : Option String) : String :=
  match entity_type with
  | some t => if t == "" then "" else ":" ++ t
  | none => ""

/-- The `skip` value both list endpoints compute after normalization
(entities.py line 83, relationships.py line 381): `skip = page * page_size`,
then interpolated into the query text. -/
def listSkip (page page_size : Int) : Int :=
  normPage page * normPageSize page_size

/-- Query construction of the entity list endpoint (entities.py lines
76-113): returns the main query (with parameter map) and the parallel
count-query text. The optional `entity_type` and every property KEY are
interpolated into the text; property VALUES go into `$prop_<key>`
parameters; `skip` and the normalized page size are interpolated. -/
def list_entities_queries (entity_type : Option String)
    (properties : List (String × Value)) (page page_size : Int) :
    BuiltQuery × String :=
  let page := normPage page
  let page_size := normPageSize page_size
  let skip := page * page_size
  let base := "MATCH (e:Entity" ++ entityTypeFragment entity_type ++ ")"
  let whereParts : List String :=
    if properties.isEmpty then []
    else
      let where_clauses := properties.map fun p => "e." ++ p.1 ++ " = $prop_" ++ p.1
      if where_clauses.isEmpty then []
      else ["WHERE " ++ String.intercalate " AND " where_clauses]
  let params := if properties.isEmpty then []
    else properties.map fun p => ("prop_" ++ p.1, p.2)
  let count_query :=
    String.intercalate " " ((base :: whereParts) ++ ["RETURN count(e) AS count"])
  let main_query :=
    String.intercalate " " ((base :: whereParts) ++
      ["RETURN e SKIP " ++ toString skip ++ " LIMIT " ++ toString page_size])
  (⟨main_query, params⟩, count_query)

/-- Query construction of `get_entity_by_properties` (entities.py lines
182-207): property keys interpolated, values as `$prop_<key>` parameters,
result limited to one row. -/
def get_entity_by_properties_query (entity_type : Option String)
    (properties : List (String × Value)) : BuiltQuery :=
  let base := "MATCH (e:Entity" ++ entityTypeFragment entity_type ++ ")"
  let where_clauses := properties.map fun p => "e." ++ p.1 ++ " = $prop_" ++ p.1
  let whereParts : List String :=
    if where_clauses.isEmpty then []
    else ["WHERE " ++ String.intercalate " AND " where_clauses]
  let text := String.intercalate " " ((base :: whereParts) ++ ["RETURN e LIMIT 1"])
  ⟨text, properties.map fun p => ("prop_" ++ p.1, p.2)⟩

/-- The fixed text around the interpolated relationship type in
`get_relationship`'s query (relationships.py lines 204-207). -/
def grTextA : String :=
  "\n            MATCH (source:Entity \x7bid: $source_id\x7d)-[r:"

/-- Closing part of `get_relationship`'s query text. -/
def grTextB : String :=
  "]->(target:Entity \x7bid: $target_id\x7d)\n            RETURN r\n            "

/-- Query construction of `get_relationship` (relationships.py lines
202-213): the caller-supplied relationship type is interpolated into the
text; the endpoint ids go through named parameters. -/
def get_relationship_query (source_id relationship_type target_id : String) :
    BuiltQuery :=
  ⟨grTextA ++ relationship_type ++ grTextB,
   [("source_id", Value.str source_id), ("target_id", Value.str target_id)]⟩

/-- Closing part of `delete_relationship`'s delete query text
(relationships.py lines 292-295). -/
def drTextB : String :=
  "]->(target:Entity \x7bid: $target_id\x7d)\n            DELETE r\n            "

/-- Query construction of `delete_relationship` (relationships.py lines
273-301): the existence-check query (same shape as `get_relationship`) and
the delete query, both interpolating the relationship type. -/
def delete_relationship_queries (source_id relationship_type target_id : String) :
    BuiltQuery × BuiltQuery :=
  (get_relationship_query source_id relationship_type target_id,
   ⟨grTextA ++ relationship_type ++ drTextB,
    [("source_id", Value.str source_id), ("target_id", Value.str target_id)]⟩)

/-- The type fragment a truthy caller-supplied relationship type contributes
to the `-[r…]->` pattern (relationships.py lines 394-395, 402-403, 415-416):
the raw string, prefixed with a colon. -/
def relTypeFragment (relationship_type : Option String) : String :=
  match relationship_type with
  | some rt => if rt == "" then "" else ":" ++ rt
  | none => ""

/-- Query construction of `list_relationships` (relationships.py lines
368-432): direction normalization, optional entity filter with outgoing /
incoming / UNION patterns, relationship type interpolated, pagination
interpolated, entity id through a named parameter. Returns the main query
and the count-query text. -/
def list_relationships_queries (entity_id : Option String)
    (relationship_type : Option String) (direction : Option String)
    (page page_size : Int) : BuiltQuery × String :=
  let page := normPage page
  let page_size := normPageSize page_size
  let valid_directions := ["outgoing", "incoming", "both"]
  let dir := match direction with
    | some d => if valid_directions.contains d then d else "both"
    | none => "both"
  let skip := page * page_size
  let relPart := relTypeFragment relationship_type
  let entityCase : List String × List (String × Value) :=
    let outgoing_match :=
      "MATCH (source:Entity \x7bid: $entity_id\x7d)-[r" ++ relPart ++ "]->(target:Entity)"
    let incoming_match :=
      "MATCH (source:Entity)-[r" ++ relPart ++ "]->(target:Entity \x7bid: $entity_id\x7d)"
    let outParts := if dir == "outgoing" || dir == "both" then [outgoing_match] else []
    let inParts :=
      if dir == "incoming" || dir == "both" then
        if dir == "both" && !outParts.isEmpty then ["UNION", incoming_match]
        else [incoming_match]
      else []
    (outParts ++ inParts, [("entity_id", Value.str (entity_id.getD ""))])
  let baseCase : List String × List (String × Value) :=
    (["MATCH (source:Entity)-[r" ++ relPart ++ "]->(target:Entity)"], [])
  let chosen := match entity_id with
    | some eid => if eid == "" then baseCase else entityCase
    | none => baseCase
  let returnClause :=
    "RETURN source.id AS source_id, type(r) AS relationship_type, target.id AS target_id, r AS relationship"
  let main := String.intercalate " "
    (chosen.1 ++ [returnClause, "SKIP " ++ toString skip ++ " LIMIT " ++ toString page_size])
  let count := String.intercalate " " (chosen.1 ++ ["RETURN count(*) AS count"])
  (⟨main, chosen.2⟩, count)

/-- Depth normalization of `find_path` (relationships.py line 521): a depth
outside (0, 10] becomes the DEFAULT 5 — it is not clamped to the bound. -/
def normFindPathDepth (max_depth : Int) : Int :=
  if max_depth ≤ 0 ∨ max_depth > 10 then 5 else max_depth

/-- Depth normalization of `find_paths` (queries.py line 258): default 3. -/
def normFindPathsDepth (max_depth : Int) : Int :=
  if max_depth ≤ 0 ∨ max_depth > 10 then 3 else max_depth

/-- The variable-length pattern fragment shared by the two path searches:
`[*..d]`, or `[:T1|:T2*..d]` when an allow-list is given (relationships.py
lines 529-533 / queries.py lines 266-270); the types are interpolated raw. -/
def relFilterFragment (d : Int) (relationship_types : Option (List String)) : String :=
  match relationship_types with
  | some ts =>
      if ts.length > 0 then
        "[" ++ String.intercalate "|" (ts.map fun t => ":" ++ t) ++
          "*.." ++ toString d ++ "]"
      else "[*.." ++ toString d ++ "]"
  | none => "[*.." ++ toString d ++ "]"

/-- Query construction of `find_path` (relationships.py lines 519-547):
single shortest path, parts joined with NO separator, endpoint ids through
named parameters. -/
def find_path_query (source_id target_id : String) (max_depth : Int)
    (relationship_types : Option (List String)) : BuiltQuery :=
  let d := normFindPathDepth max_depth
  let text :=
    "MATCH path = shortestPath((source:Entity \x7bid: $source_id\x7d)-" ++
      relFilterFragment d relationship_types ++
      "-(target:Entity \x7bid: $target_id\x7d))" ++
      "RETURN path, length(path) AS path_length"
  ⟨text, [("source_id", Value.str source_id), ("target_id", Value.str target_id)]⟩

/-- Query construction of `find_paths` (queries.py lines 256-285): all
shortest paths, depth default 3. -/
def find_paths_query (source_id target_id : String) (max_depth : Int)
    (relationship_types : Option (List String)) : BuiltQuery :=
  let d := normFindPathsDepth max_depth
  let text :=
    "MATCH path = allShortestPaths((source:Entity \x7bid: $source_id\x7d)-" ++
      relFilterFragment d relationship_types ++
      "-(target:Entity \x7bid: $target_id\x7d))" ++
      "RETURN path, length(path) AS path_length"
  ⟨text, [("source_id", Value.str source_id), ("target_id", Value.str target_id)]⟩

/-- The find_path response envelope; `paths` keeps the returned rows (the
source's per-row node/relationship extraction is abstracted to the row). -/
structure FindPathResult where
  success : Bool
  paths : List Value
  message : Option String := none

/-- Result shaping of `find_path` after execution (relationships.py lines
550-581): NO rows is a successful, empty result — not a failure. -/
def find_path_respond (rows : List Value) : FindPathResult :=
  if rows.isEmpty then
    { success := true, paths := [],
      message := some "No path found between the entities" }
  else { success := true, paths := rows }

/-- Result shaping of `find_paths` (queries.py lines 287-331): same empty
behaviour. -/
def find_paths_respond (rows : List Value) : FindPathResult :=
  if rows.isEmpty then
    { success := true, paths := [],
      message := some "No path found between the entities" }
  else { success := true, paths := rows }

/-- Limit normalization of `search_entities` (queries.py lines 149-150). -/
def normSearchLimit (limit : Int) : Int :=
  if limit ≤ 0 ∨ limit > 100 then 20 else limit

def splitWsAux : List Char → List Char → List String
  | [], acc => if acc.isEmpty then [] else [⟨acc.reverse⟩]
  | c :: cs, acc =>
    if c.isWhitespace then
      if acc.isEmpty then splitWsAux cs []
      else String.mk acc.reverse :: splitWsAux cs []
    else splitWsAux cs (c :: acc)

/-- Python `s.strip().split()`: split on whitespace runs, no empty terms. -/
def pySplitWhitespace (s : String) : List String :=
  splitWsAux s.data []

/-- Query construction of `search_entities` (queries.py lines 144-187):
entity type labels are interpolated into the MATCH pattern; each whitespace
term becomes a `$term<i>` parameter, AND-combined over an OR of the fixed
searchable properties; the normalized limit is interpolated. -/
def search_entities_query (query : String) (entity_types : Option (List String))
    (limit : Int) : BuiltQuery :=
  let entity_types := match entity_types with
    | some ts => if ts.isEmpty then ["Concept", "Symbol"] else ts
    | none => ["Concept", "Symbol"]
  let limit := normSearchLimit limit
  let type_filter := String.intercalate ":" ("Entity" :: entity_types)
  let terms := pySplitWhitespace query
  let where_clauses := terms.enum.map fun p =>
    let tp := "term" ++ toString p.1
    "(" ++ String.intercalate " OR "
      [ "toLower(e.name) CONTAINS toLower($" ++ tp ++ ")",
        "toLower(e.description) CONTAINS toLower($" ++ tp ++ ")",
        "toLower(toString(e.notation)) CONTAINS toLower($" ++ tp ++ ")",
        "toLower(toString(e.domain)) CONTAINS toLower($" ++ tp ++ ")" ] ++ ")"
  let query_parts := ["MATCH (e:" ++ type_filter ++ ")"] ++
    (if where_clauses.isEmpty then []
     else ["WHERE " ++ String.intercalate " AND " where_clauses]) ++
    ["RETURN e LIMIT " ++ toString limit]
  let params := terms.enum.map fun p => ("term" ++ toString p.1, Value.str p.2)
  ⟨String.intercalate "\n" query_parts, params⟩

/-- The recognized tier labels (queries.py line 525). -/
def validTiers : List String := ["L1", "L2", "L3"]

/-- Tier normalization of `get_entity_with_tier` (queries.py lines 526-527):
anything outside the valid set becomes `L1`. -/
def normTier (tier : String) : String :=
  if validTiers.contains tier then tier else "L1"

/-- The lowercased suffix a tier label marks property names with. -/
def tierSuffix (t : String) : String :=
  "_" ++ pyToLower t

/-- `prop[:-len(suffix)]`: the base name with the trailing tier suffix cut. -/
def stripTier (tier k : String) : String :=
  k.dropRight (tierSuffix tier).length

/-- Whether a key ends in the suffix of any recognized tier (the `any(...)`
guard of queries.py line 555). -/
def hasTierSuffix (k : String) : Bool :=
  validTiers.any fun t => pyEndsWith k (tierSuffix t)

/-- One iteration of the tier projection loop over a property item. -/
def projectStep (tier : String) (acc : List (String × Value))
    (p : String × Value) : List (String × Value) :=
  if pyEndsWith p.1 (tierSuffix tier) then dictInsert acc (stripTier tier p.1) p.2
  else if hasTierSuffix p.1 then acc
  else dictInsert acc p.1 p.2

/-- The tier projection loop of `get_entity_with_tier` (queries.py lines
548-557): a key ending in the requested tier's suffix is inserted under the
stripped base name; a key ending in some OTHER recognized tier suffix is
skipped; any other key is inserted unchanged. `tier` is expected already
normalized. -/
def projectTier (tier : String) (props : List (String × Value)) :
    List (String × Value) :=
  props.foldl (projectStep tier) []

/-- The property view `get_entity_with_tier` returns for an entity's raw
property dict (queries.py lines 524-557). -/
def get_entity_with_tier_props (tier : String) (entity : List (String × Value)) :
    List (String × Value) :=
  projectTier (normTier tier) entity

/-- The result dict of `create_entity` (entities.py lines 252-258). -/
structure CreateEntityResult where
  success : Bool
  entity_id : Value
  entity_type : String
  properties : List (String × Value)
  message : String

/-- `create_entity` (entities.py lines 241-258): generates an id when the
payload has none (the `uuid4` draw is the injected `newId`), and returns
success unconditionally — the function performs NO schema validation (the
`SchemaManager` built at registration time is never consulted). The
source's `entity_props` local (payload plus provenance) is dead with
respect to the returned value. -/
def create_entity (entity_type : String) (properties : List (String × Value))
    (_provenance : Option Value) (newId : String) : CreateEntityResult :=
  let properties :=
    if dictContains properties "id" then properties
    else dictInsert properties "id" (Value.str newId)
  { success := true,
    entity_id := (dictLookup properties "id").getD (Value.str ""),
    entity_type := entity_type,
    properties := properties,
    message := "Entity created successfully" }

/-- One store call: query text and parameter map. -/
structure QueryCall where
  text : String
  params : List (String × Value)

/-- The source-endpoint existence read of `create_relationship`
(relationships.py lines 85-89). -/
def srcExistsQuery (source_id : String) : QueryCall :=
  ⟨"\n            MATCH (source:Entity \x7bid: $source_id\x7d)\n            RETURN labels(source) AS source_labels\n            ",
   [("source_id", Value.str source_id)]⟩

/-- The target-endpoint existence read of `create_relationship`
(relationships.py lines 97-101). -/
def tgtExistsQuery (target_id : String) : QueryCall :=
  ⟨"\n            MATCH (target:Entity \x7bid: $target_id\x7d)\n            RETURN labels(target) AS target_labels\n            ",
   [("target_id", Value.str target_id)]⟩

/-- Label extraction of `create_relationship` (relationships.py lines
110-116): the first label other than `Entity`, else `Entity`. -/
def firstNonEntityLabel (labels : List String) : String :=
  match labels.filter (fun l => l ≠ "Entity") with
  | [] => "Entity"
  | t :: _ => t

/-- Fixed opening of the CREATE query text (relationships.py lines 139-143). -/
def createRelTextA : String :=
  "\n            MATCH (source:Entity \x7bid: $source_id\x7d), (target:Entity \x7bid: $target_id\x7d)\n            CREATE (source)-[r:"

/-- Fixed closing of the CREATE query text. -/
def createRelTextB : String :=
  "]->(target)\n            RETURN r\n            "

/-- The result dict of `create_relationship` (relationships.py). -/
structure CreateRelResult where
  success : Bool
  errors : List String := []
  message : String := ""
  relationship_id : Option String := none
  properties : List (String × Value) := []

/-- A `create_relationship` run: its result, the reads it issued in order,
and the writes it issued in order. -/
structure CreateRelOutcome where
  result : CreateRelResult
  reads : List QueryCall
  writes : List QueryCall

/-- `create_relationship` (relationships.py lines 64-165). `db` is the
store's answer to an existence read: the labels of the entity with that id,
or `none` when no row comes back. The generated uuid is the injected
`newId`; a `TypeError` escaping validation is caught by the endpoint's
`except` (its message text is abbreviated here). -/
def create_relationship (rels : List (String × RelationshipTypeDef))
    (db : String → Option (List String))
    (source_id relationship_type target_id : String)
    (properties? : Option (List (String × Value))) (newId : String) :
    CreateRelOutcome :=
  let properties := properties?.getD []
  let srcRead := srcExistsQuery source_id
  match db source_id with
  | none =>
    { result := { success := false,
                  message := "Source entity with ID '" ++ source_id ++ "' not found" },
      reads := [srcRead], writes := [] }
  | some source_labels =>
    let tgtRead := tgtExistsQuery target_id
    match db target_id with
    | none =>
      { result := { success := false,
                    message := "Target entity with ID '" ++ target_id ++ "' not found" },
        reads := [srcRead, tgtRead], writes := [] }
    | some target_labels =>
      let source_type := firstNonEntityLabel source_labels
      let target_type := firstNonEntityLabel target_labels
      match validate_relationship rels relationship_type source_type target_type
          properties with
      | .error _ =>
        { result := { success := false,
                      message := "Failed to create relationship: TypeError" },
          reads := [srcRead, tgtRead], writes := [] }
      | .ok (is_valid, errors) =>
        if is_valid then
          let properties := dictInsert properties "id" (Value.str newId)
          let props_string := String.intercalate ", "
            (properties.map fun p => p.1 ++ ": $" ++ p.1)
          let props_clause :=
            if props_string == "" then "" else "\x7b" ++ props_string ++ "\x7d"
          let text := createRelTextA ++ relationship_type ++ " " ++ props_clause ++
            createRelTextB
          let params := dictUpdate properties
            [("source_id", Value.str source_id), ("target_id", Value.str target_id)]
          { result := { success := true,
                        relationship_id := some newId,
                        properties := properties,
                        message := "Relationship created successfully" },
            reads := [srcRead, tgtRead], writes := [⟨text, params⟩] }
        else
          { result := { success := false, errors := errors,
                        message := "Relationship validation failed" },
            reads := [srcRead, tgtRead], writes := [] }

/-- A registry whose inheritance chain is the two-cycle A → B → A. -/
def cyclicRegistry : List (String × EntityTypeDef) :=
  [("A", { inherits := some "B" }), ("B", { inherits := some "A" })]

/-- A registry where leaf type T redeclares property `p` (as a number) that
its parent P declares as a string. -/
def overrideRegistry : List (String × EntityTypeDef) :=
  [ ("P", { properties := [("p", { type := some "string" })] }),
    ("T", { inherits := some "P",
            properties := [("p", { type := some "number" })] }) ]

/-- A payload against the default `Concept` type carrying three violations at
once: an undeclared key, an enum violation and a kind violation (with two
required properties also absent). -/
def conceptDemoPayload : List (String × Value) :=
  [("bogus", Value.str "x"), ("tier", Value.str "L9"), ("name", Value.num 5)]

/-- The effective property dict of `Concept` after the inheritance walk over
the default registry (leaf first, ancestor appended). -/
def conceptEffProps : List (String × PropDef) :=
  [ ("domain", { type := some "string", required := true }),
    ("tier",
      { type := some "string",
        enum := some [Value.str "L1", Value.str "L2", Value.str "L3"],
        required := true }),
    ("id", { type := some "string", required := true }),
    ("name", { type := some "string", required := true }),
    ("description", { type := some "string", required := false }) ]

/-- The violation list `validate_entity` returns for `conceptDemoPayload`. -/
def conceptDemoErrors : List String :=
  [ requiredMsg "domain", requiredMsg "id",
    undeclaredMsg "bogus" "type 'Concept'",
    enumMsg "tier" [Value.str "L1", Value.str "L2", Value.str "L3"],
    kindMsg "name" "a string" ]

/-- A two-entity store for the C8 witness: both `s1` and `t1` exist, each a
`Concept`. -/
def demoDb : String → Option (List String) := fun id =>
  if id = "s1" then some ["Concept"]
  else if id = "t1" then some ["Concept"] else none

/-- The WHERE fragment of the entity list / lookup queries as a function of
the property KEYS alone. -/
def entityWhereParts (keys : List String) : List String :=
  let where_clauses := keys.map fun k => "e." ++ k ++ " = $prop_" ++ k
  if where_clauses.isEmpty then []
  else ["WHERE " ++ String.intercalate " AND " where_clauses]

/-- The main entity-list query text as a function of the type name, the
property keys, and the pagination numbers — the property VALUES do not occur
in it. -/
def list_entities_text (entity_type : Option String) (keys : List String)
    (page page_size : Int) : String :=
  String.intercalate " "
    ((("MATCH (e:Entity" ++ entityTypeFragment entity_type ++ ")") ::
        (if keys.isEmpty then [] else entityWhereParts keys)) ++
      ["RETURN e SKIP " ++ toString (listSkip page page_size) ++ " LIMIT " ++
        toString (normPageSize page_size)])

/-- The parallel count-query text of the entity list, again a function of
type name and keys only. -/
def list_entities_count_text (entity_type : Option String)
    (keys : List String) : String :=
  String.intercalate " "
    ((("MATCH (e:Entity" ++ entityTypeFragment entity_type ++ ")") ::
        (if keys.isEmpty then [] else entityWhereParts keys)) ++
      ["RETURN count(e) AS count"])

/-- The `get_entity_by_properties` query text as a function of type name and
keys only. -/
def get_entity_by_properties_text (entity_type : Option String)
    (keys : List String) : String :=
  String.intercalate " "
    ((("MATCH (e:Entity" ++ entityTypeFragment entity_type ++ ")") ::
        entityWhereParts keys) ++ ["RETURN e LIMIT 1"])

/-- The `search_entities` query text as a function of the entity-type labels,
the NUMBER of search terms, and the limit — the terms themselves do not
occur in it (they are carried by the `$term<i>` parameters). -/
def search_entities_text (entity_types : Option (List String)) (nTerms : Nat)
    (limit : Int) : String :=
  let entity_types := match entity_types with
    | some ts => if ts.isEmpty then ["Concept", "Symbol"] else ts
    | none => ["Concept", "Symbol"]
  let limit := normSearchLimit limit
  let type_filter := String.intercalate ":" ("Entity" :: entity_types)
  let where_clauses := (List.range nTerms).map fun i =>
    let tp := "term" ++ toString i
    "(" ++ String.intercalate " OR "
      [ "toLower(e.name) CONTAINS toLower($" ++ tp ++ ")",
        "toLower(e.description) CONTAINS toLower($" ++ tp ++ ")",
        "toLower(toString(e.notation)) CONTAINS toLower($" ++ tp ++ ")",
        "toLower(toString(e.domain)) CONTAINS toLower($" ++ tp ++ ")" ] ++ ")"
  String.intercalate "\n"
    (["MATCH (e:" ++ type_filter ++ ")"] ++
      (if where_clauses.isEmpty then []
       else ["WHERE " ++ String.intercalate " AND " where_clauses]) ++
      ["RETURN e LIMIT " ++ toString limit])

/-- A two-entity store whose labels make a REPRESENTS edge valid (Symbol
source, Concept target). -/
def demoDbOk : String → Option (List String) := fun id =>
  if id = "s1" then some ["Symbol"]
  else if id = "t1" then some ["Concept"] else none

/-! ### Association-list lemmas -/

@[simp] theorem dictKeys_nil : dictKeys ([] : List (String × α)) = [] := rfl

@[simp] theorem dictKeys_cons (p : String × α) (m : List (String × α)) :
    dictKeys (p :: m) = p.1 :: dictKeys m := rfl

theorem dictLookup_insert (m : List (String × α)) (k k' : String) (v : α) :
    dictLookup (dictInsert m k v) k' = if k = k' then some v else dictLookup m k' := by
  induction m with
  | nil => simp [dictInsert, dictLookup]
  | cons p m ih =>
    by_cases hpk : p.1 = k
    · by_cases hkk : k = k'
      · subst hkk
        simp [dictInsert, dictLookup, hpk]
      · have hpk' : p.1 ≠ k' := by rw [hpk]; exact hkk
        simp [dictInsert, dictLookup, hpk, hkk, hpk']
    · by_cases hkk : k = k'
      · subst hkk
        simp [dictInsert, dictLookup, hpk, ih]
      · simp [dictInsert, dictLookup, hpk, hkk, ih]

theorem mem_dictKeys_insert (m : List (String × α)) (k : String) (v : α)
    (a : String) :
    a ∈ dictKeys (dictInsert m k v) ↔ a ∈ dictKeys m ∨ a = k := by
  induction m with
  | nil => simp [dictInsert]
  | cons p m ih =>
    by_cases hpk : p.1 = k
    · simp [dictInsert, hpk]
      tauto
    · simp [dictInsert, hpk, ih]
      tauto

theorem dictLookup_eq_none (m : List (String × α)) (k : String) :
    dictLookup m k = none ↔ k ∉ dictKeys m := by
  induction m with
  | nil => simp [dictLookup]
  | cons p m ih =>
    by_cases h : p.1 = k
    · simp [dictLookup, h]
    · have h' : k ≠ p.1 := fun hh => h hh.symm
      simp [dictLookup, h, h', ih]

theorem dictKeys_insert_nodup (m : List (String × α)) (k : String) (v : α)
    (h : (dictKeys m).Nodup) : (dictKeys (dictInsert m k v)).Nodup := by
  induction m with
  | nil => simp [dictInsert]
  | cons p m ih =>
    rw [dictKeys_cons, List.nodup_cons] at h
    by_cases hpk : p.1 = k
    · have hstep : dictInsert (p :: m) k v = (k, v) :: m := by
        simp [dictInsert, hpk]
      rw [hstep, dictKeys_cons, List.nodup_cons]
      exact ⟨hpk ▸ h.1, h.2⟩
    · have hstep : dictInsert (p :: m) k v = p :: dictInsert m k v := by
        simp [dictInsert, hpk]
      rw [hstep, dictKeys_cons, List.nodup_cons]
      refine ⟨?_, ih h.2⟩
      intro hmem
      rcases (mem_dictKeys_insert m k v p.1).mp hmem with h1 | h2
      · exact h.1 h1
      · exact hpk h2

theorem dictLookup_update (m l : List (String × α)) (k : String)
    (h : (dictKeys l).Nodup) :
    dictLookup (dictUpdate m l) k =
      match dictLookup l k with
      | some v => some v
      | none => dictLookup m k := by
  induction l generalizing m with
  | nil => simp [dictUpdate, dictLookup]
  | cons p l ih =>
    obtain ⟨k0, v0⟩ := p
    simp only [dictKeys_cons, List.nodup_cons] at h
    have hstep : dictUpdate m ((k0, v0) :: l) = dictUpdate (dictInsert m k0 v0) l := rfl
    rw [hstep, ih _ h.2]
    by_cases hk : k0 = k
    · have hnone : dictLookup l k = none := (dictLookup_eq_none l k).mpr (hk ▸ h.1)
      simp [dictLookup, hk, hnone, dictLookup_insert]
    · cases hv : dictLookup l k <;> simp [dictLookup, hk, hv, dictLookup_insert]

/-! ### C4: inheritance cycles -/

theorem cyclicWalk_aux (fuel : Nat) :
    ∀ cur : EntityTypeDef,
      (cur = { inherits := some "B" } ∨ cur = { inherits := some "A" }) →
      ∀ acc errs, inheritanceWalk cyclicRegistry fuel cur acc errs = none := by
  induction fuel with
  | zero => intro cur _ acc errs; rfl
  | succ n ih =>
    rintro cur (rfl | rfl) acc errs
    · have hB : dictLookup cyclicRegistry "B" =
          some { inherits := some "A" } := rfl
      simp only [inheritanceWalk, hB, dictUpdate]
      exact ih _ (Or.inr rfl) _ _
    · have hA : dictLookup cyclicRegistry "A" =
          some { inherits := some "B" } := rfl
      simp only [inheritanceWalk, hA, dictUpdate]
      exact ih _ (Or.inl rfl) _ _

/-- C4. The claim says a cyclic inheritance chain is detected and reported as
an `InheritanceCycle` failure. The source's `while current_type:` walk has no
visited-set: on the registry A → B → A, `validate_entity` never produces a
result however much fuel the loop is given — the Python code loops forever.
The second half of the claim does hold: a missing ancestor name is reported
(as `Parent type '…' does not exist`). -/
theorem inheritance_cycle_never_terminates :
    (∀ (fuel : Nat) (payload : List (String × Value)),
        validate_entity cyclicRegistry "A" payload fuel = none) ∧
      validate_entity [("A", { inherits := some "Ghost" })] "A" [] 10 =
        some (.ok (false, [parentMissingMsg "Ghost"])) := by
  constructor
  · intro fuel payload
    have hA : dictLookup cyclicRegistry "A" = some { inherits := some "B" } := rfl
    have hwalk := cyclicWalk_aux fuel { inherits := some "B" } (Or.inl rfl) [] []
    simp [validate_entity, hA, hwalk]
  · rfl

/-! ### C3: inheritance precedence -/

/-- C3 counterexample. The claim says the LEAF's definition wins a
property-name collision. In the source walk, `all_properties.update(...)` is
called with the leaf's properties first and the ancestor's afterwards, so the
ANCESTOR's definition overwrites the leaf's: against `overrideRegistry`,
where T declares `p` as a number and its parent P declares `p` as a string, a
string value for `p` validates and a numeric value is rejected — the
opposite of the claim. The third conjunct shows the effective definition of
`p` is P's (`string`), not T's (`number`). -/
theorem leaf_override_fails :
    validate_entity overrideRegistry "T" [("p", Value.str "x")] 10 =
        some (.ok (true, [])) ∧
      validate_entity overrideRegistry "T" [("p", Value.num 3)] 10 =
        some (.ok (false, [kindMsg "p" "a string"])) ∧
      (inheritanceWalk overrideRegistry 10
            { inherits := some "P", properties := [("p", { type := some "number" })] }
            [] []).map (fun r => (dictLookup r.1 "p").map PropDef.type) =
        some (some (some "string")) :=
  ⟨rfl, rfl, rfl⟩

/-- C3 amended: for an entity type T with parent P (P itself a root), the
effective property set is the union of T's own and P's properties, but on a
name collision the ANCESTOR's definition takes precedence (the walk merges
leaf first, then lets `dict.update` with the ancestor's dict overwrite). -/
theorem inheritanceWalk_succ (reg : List (String × EntityTypeDef)) (fuel : Nat)
    (cur : EntityTypeDef) (acc : List (String × PropDef)) (errs : List String) :
    inheritanceWalk reg (fuel + 1) cur acc errs =
      (match cur.inherits with
       | none => some (dictUpdate acc cur.properties, errs)
       | some parentName =>
         match dictLookup reg parentName with
         | none => some (dictUpdate acc cur.properties,
             errs ++ [parentMissingMsg parentName])
         | some parentDef =>
             inheritanceWalk reg fuel parentDef (dictUpdate acc cur.properties) errs) :=
  rfl

theorem ancestor_precedence_in_effective_properties
    (reg : List (String × EntityTypeDef)) (tname pname : String)
    (td pd : EntityTypeDef) (fuel : Nat)
    (htd : dictLookup reg tname = some td)
    (hinh : td.inherits = some pname)
    (hpd : dictLookup reg pname = some pd)
    (hroot : pd.inherits = none)
    (hndT : (dictKeys td.properties).Nodup)
    (hndP : (dictKeys pd.properties).Nodup) :
    ∃ allProps,
      inheritanceWalk reg (fuel + 2) td [] [] = some (allProps, []) ∧
        validate_entity reg tname [] (fuel + 2) =
          some (.ok ((requiredErrors allProps []).isEmpty, requiredErrors allProps [])) ∧
        (∀ k d, dictLookup pd.properties k = some d →
          dictLookup allProps k = some d) ∧
        (∀ k d, dictLookup td.properties k = some d →
          dictLookup pd.properties k = none → dictLookup allProps k = some d) ∧
        (∀ k, dictLookup td.properties k = none →
          dictLookup pd.properties k = none → dictLookup allProps k = none) := by
  have hwalk : inheritanceWalk reg (fuel + 2) td [] [] =
      some (dictUpdate (dictUpdate [] td.properties) pd.properties, []) := by
    rw [show fuel + 2 = fuel + 1 + 1 from rfl, inheritanceWalk_succ]
    simp only [hinh, hpd, inheritanceWalk_succ, hroot]
  refine ⟨dictUpdate (dictUpdate [] td.properties) pd.properties, hwalk, ?_, ?_, ?_, ?_⟩
  · simp [validate_entity, htd, hwalk, checkItems]
  · intro k d hk
    rw [dictLookup_update _ _ _ hndP]
    simp [hk]
  · intro k d hk hnone
    rw [dictLookup_update _ _ _ hndP]
    simp only [hnone]
    rw [dictLookup_update _ _ _ hndT]
    simp [hk]
  · intro k h1 h2
    rw [dictLookup_update _ _ _ hndP]
    simp only [h2]
    rw [dictLookup_update _ _ _ hndT]
    simp [h1, dictLookup]

/-- C3 amended, applied: against `overrideRegistry`, the parent's `string`
definition of `p` is the effective one (collision), while a property only the
leaf declares would survive. -/
theorem ancestor_precedence_witness :
    ∃ allProps,
      inheritanceWalk overrideRegistry 2
          { inherits := some "P", properties := [("p", { type := some "number" })] }
          [] [] = some (allProps, []) ∧
        validate_entity overrideRegistry "T" [] 2 =
          some (.ok ((requiredErrors allProps []).isEmpty, requiredErrors allProps [])) ∧
        (∀ k d, dictLookup [("p", ({ type := some "string" } : PropDef))] k = some d →
          dictLookup allProps k = some d) ∧
        (∀ k d,
          dictLookup [("p", ({ type := some "number" } : PropDef))] k = some d →
          dictLookup [("p", ({ type := some "string" } : PropDef))] k = none →
          dictLookup allProps k = some d) ∧
        (∀ k, dictLookup [("p", ({ type := some "number" } : PropDef))] k = none →
          dictLookup [("p", ({ type := some "string" } : PropDef))] k = none →
          dictLookup allProps k = none) :=
  ancestor_precedence_in_effective_properties overrideRegistry "T" "P"
    { inherits := some "P", properties := [("p", { type := some "number" })] }
    { properties := [("p", { type := some "string" })] }
    0 rfl rfl rfl rfl (by simp) (by simp)

/-! ### C2: entity creation versus schema validation -/

/-- C2. The claim says `create_entity("Concept", {name: "Derivative"})`
returns a validation failure naming the missing `domain`. The source's
`create_entity` performs NO validation at all (the `SchemaManager` created
at endpoint registration is never consulted): it returns success for this
payload, even though `validate_entity` against the default registry rejects
it — listing the missing `domain` (and `tier` and `id`). -/
theorem create_entity_skips_validation :
    (create_entity "Concept" [("name", Value.str "Derivative")] none "gid-1").success
        = true ∧
      validate_entity defaultEntityTypes "Concept"
          [("name", Value.str "Derivative")] 10 =
        some (.ok (false, [requiredMsg "domain", requiredMsg "tier", requiredMsg "id"])) ∧
      requiredMsg "domain" ∈
        [requiredMsg "domain", requiredMsg "tier", requiredMsg "id"] :=
  ⟨rfl, rfl, List.mem_cons_self _ _⟩

/-! ### C5: path-search depth normalization -/

/-- C5 counterexample. The claim says an out-of-range `max_depth` (e.g. 99)
is CLAMPED TO 10. The source resets it to the default 5 instead
(`find_path`), and the built query's variable-length bound is `*..5`. -/
theorem find_path_depth_not_clamped :
    normFindPathDepth 99 = 5 ∧ ¬ normFindPathDepth 99 = 10 ∧
      (find_path_query "A" "B" 99 none).text =
        "MATCH path = shortestPath((source:Entity \x7bid: $source_id\x7d)-[*..5]-(target:Entity \x7bid: $target_id\x7d))RETURN path, length(path) AS path_length" :=
  ⟨rfl, by decide, rfl⟩

/-- C5 amended: an out-of-range `max_depth` normalizes to the operation
default — 5 for `find_path` (single shortest path), 3 for `find_paths` (all
shortest paths) — not to the bound 10; and the absence of any path (no rows)
yields a successful result with an empty path list, not a failure. -/
theorem path_depth_default_and_empty_success (d : Int) (h : d ≤ 0 ∨ 10 < d) :
    normFindPathDepth d = 5 ∧ normFindPathsDepth d = 3 ∧
      find_path_respond [] =
        { success := true, paths := [],
          message := some "No path found between the entities" } ∧
      find_paths_respond [] =
        { success := true, paths := [],
          message := some "No path found between the entities" } := by
  refine ⟨?_, ?_, rfl, rfl⟩
  · rw [normFindPathDepth, if_pos]
    rcases h with h | h
    · exact Or.inl h
    · exact Or.inr h
  · rw [normFindPathsDepth, if_pos]
    rcases h with h | h
    · exact Or.inl h
    · exact Or.inr h

/-- C5 amended, applied at `max_depth = 99`. -/
theorem path_depth_witness :
    normFindPathDepth 99 = 5 ∧ normFindPathsDepth 99 = 3 ∧
      find_path_respond [] =
        { success := true, paths := [],
          message := some "No path found between the entities" } ∧
      find_paths_respond [] =
        { success := true, paths := [],
          message := some "No path found between the entities" } :=
  path_depth_default_and_empty_success 99 (Or.inr (by norm_num))

/-! ### C6: pagination -/

theorem normPageSize_bounds (ps : Int) :
    1 ≤ normPageSize ps ∧ normPageSize ps ≤ 100 := by
  rw [normPageSize]
  split
  · omega
  · next h => push_neg at h; omega

/-- The ceiling characterization of `(tc + s - 1) // s` for positive `s` and
`tc`: it is the least `T` with `tc ≤ T * s`. -/
theorem fdiv_ceil_char (tc s : Int) (hs : 0 < s) :
    tc ≤ Int.fdiv (tc + s - 1) s * s ∧
      (Int.fdiv (tc + s - 1) s - 1) * s < tc := by
  rw [Int.fdiv_eq_ediv _ (le_of_lt hs)]
  have h1 := Int.ediv_add_emod (tc + s - 1) s
  have h2 : 0 ≤ (tc + s - 1) % s := Int.emod_nonneg _ (ne_of_gt hs)
  have h3 : (tc + s - 1) % s < s := Int.emod_lt_of_pos _ hs
  set T := (tc + s - 1) / s with hT
  constructor
  · have hc : T * s = s * T := mul_comm _ _
    rw [hc]
    linarith
  · have hc : (T - 1) * s = s * T - s := by ring
    rw [hc]
    linarith

/-- C6. Both list endpoints normalize a negative page to 0 and an
out-of-range page size to 20, compute `skip = page * page_size` on the
normalized values, and return metadata with `total_pages` the ceiling of
`total_count / page_size` (characterized as the least multiple bound,
together with `total_pages = 0 ↔ total_count = 0`), `has_prev = (page > 0)`,
and `has_next = false` on the last page. `list_relationships` computes the
very same metadata as the entity listing. -/
theorem pagination_metadata_correct (page page_size total_count : Int)
    (htc : 0 ≤ total_count) :
    (page < 0 → normPage page = 0) ∧
      (0 ≤ page → normPage page = page) ∧
      (page_size ≤ 0 ∨ page_size > 100 → normPageSize page_size = 20) ∧
      (0 < page_size → page_size ≤ 100 → normPageSize page_size = page_size) ∧
      listSkip page page_size = normPage page * normPageSize page_size ∧
      list_relationships_pagination page page_size total_count =
        list_entities_pagination page page_size total_count ∧
      (list_entities_pagination page page_size total_count).page = normPage page ∧
      (list_entities_pagination page page_size total_count).page_size
        = normPageSize page_size ∧
      (list_entities_pagination page page_size total_count).total_count
        = total_count ∧
      total_count ≤
        (list_entities_pagination page page_size total_count).total_pages *
          normPageSize page_size ∧
      (0 < total_count →
        ((list_entities_pagination page page_size total_count).total_pages - 1) *
            normPageSize page_size < total_count) ∧
      ((list_entities_pagination page page_size total_count).total_pages = 0 ↔
        total_count = 0) ∧
      ((list_entities_pagination page page_size total_count).has_prev = true ↔
        0 < normPage page) ∧
      (normPage page =
          (list_entities_pagination page page_size total_count).total_pages - 1 →
        (list_entities_pagination page page_size total_count).has_next = false) := by
  obtain ⟨hs1, hs2⟩ := normPageSize_bounds page_size
  refine ⟨fun h => by rw [normPage, if_pos h],
    fun h => by rw [normPage, if_neg (by omega)],
    fun h => by rw [normPageSize, if_pos h],
    fun h1 h2 => by rw [normPageSize, if_neg (by omega)],
    rfl, rfl, rfl, rfl, rfl, ?_, ?_, ?_, ?_, ?_⟩
  all_goals
    have hTP : (list_entities_pagination page page_size total_count).total_pages =
        if total_count > 0 then
          Int.fdiv (total_count + normPageSize page_size - 1) (normPageSize page_size)
        else 0 := rfl
  · rw [hTP]
    by_cases h : 0 < total_count
    · simpa [h] using
        (fdiv_ceil_char total_count (normPageSize page_size) (by omega)).1
    · have h0 : total_count = 0 := by omega
      simp [h0]
  · intro h
    rw [hTP]
    simpa [h] using
      (fdiv_ceil_char total_count (normPageSize page_size) (by omega)).2
  · rw [hTP]
    by_cases h : 0 < total_count
    · simp only [h, if_pos]
      constructor
      · intro hT
        have hb :=
          (fdiv_ceil_char total_count (normPageSize page_size) (by omega)).1
        rw [hT] at hb
        omega
      · omega
    · have h0 : total_count = 0 := by omega
      simp [h0]
  · have hHP : (list_entities_pagination page page_size total_count).has_prev =
        decide (normPage page > 0) := rfl
    rw [hHP]
    simp
  · intro h
    rw [hTP] at h
    have hHN : (list_entities_pagination page page_size total_count).has_next =
        decide (normPage page <
          (if total_count > 0 then
            Int.fdiv (total_count + normPageSize page_size - 1) (normPageSize page_size)
          else 0) - 1) := rfl
    rw [hHN]
    simp only [decide_eq_false_iff_not, h]
    exact lt_irrefl _

/-- C6, applied at the spec's scenario: `page = -1`, `page_size = 500`,
`total_count = 45` (normalizes to page 0, size 20; 3 pages). -/
theorem pagination_witness :
    normPage (-1) = 0 ∧ normPageSize 500 = 20 ∧
      (45 : Int) ≤ (list_entities_pagination (-1) 500 45).total_pages *
        normPageSize 500 ∧
      ((list_entities_pagination (-1) 500 45).total_pages - 1) *
          normPageSize 500 < 45 ∧
      ((list_entities_pagination (-1) 500 45).has_prev = true ↔
        0 < normPage (-1)) := by
  obtain ⟨h1, _, h3, _, _, _, _, _, _, h10, h11, _, h13, _⟩ :=
    pagination_metadata_correct (-1) 500 45 (by norm_num)
  exact ⟨h1 (by norm_num), h3 (Or.inr (by norm_num)), h10, h11 (by norm_num), h13⟩

/-! ### C7: violation accumulation -/

theorem requiredErrors_mem (allProps : List (String × PropDef))
    (payload : List (String × Value)) (k : String) (d : PropDef)
    (hk : dictLookup allProps k = some d) (hreq : d.required = true)
    (habs : dictLookup payload k = none) :
    requiredMsg k ∈ requiredErrors allProps payload := by
  induction allProps with
  | nil => simp [dictLookup] at hk
  | cons p m ih =>
    by_cases hp : p.1 = k
    · have hpd : p.2 = d := by simpa [dictLookup, hp] using hk
      have hcontains : dictContains payload k = false := by
        simp [dictContains, habs]
      simp [requiredErrors, List.filterMap_cons, hp, hpd, hreq, hcontains]
    · have hk' : dictLookup m k = some d := by simpa [dictLookup, hp] using hk
      have hmem := ih hk'
      rw [requiredErrors] at hmem ⊢
      rw [List.filterMap_cons]
      cases hfp : (if p.2.required && !dictContains payload p.1 then
          some (requiredMsg p.1) else none) with
      | none => simpa using hmem
      | some b => exact List.mem_cons_of_mem _ hmem

theorem checkItems_mem (allProps : List (String × PropDef)) (typeDesc : String)
    (payload : List (String × Value)) (itemErrs : List String)
    (k : String) (v : Value) (e : List String)
    (hmem : (k, v) ∈ payload)
    (hok : checkItems allProps typeDesc payload = .ok itemErrs)
    (hitem : checkItem allProps typeDesc k v = .ok e) :
    ∀ m ∈ e, m ∈ itemErrs := by
  induction payload generalizing itemErrs with
  | nil => simp at hmem
  | cons p rest ih =>
    obtain ⟨k0, v0⟩ := p
    cases hi : checkItem allProps typeDesc k0 v0 with
    | error err =>
      simp only [checkItems, hi] at hok
      exact Except.noConfusion hok
    | ok e1 =>
      cases hr : checkItems allProps typeDesc rest with
      | error err =>
        simp only [checkItems, hi, hr] at hok
        exact Except.noConfusion hok
      | ok es =>
        simp only [checkItems, hi, hr, Except.ok.injEq] at hok
        subst hok
        rcases List.mem_cons.mp hmem with hfst | hrest
        · have h1 : k = k0 := congrArg Prod.fst hfst
          have h2 : v = v0 := congrArg Prod.snd hfst
          subst h1
          subst h2
          have he : e = e1 := by
            rw [hitem] at hi
            exact Except.ok.inj hi
          subst he
          intro m hm
          exact List.mem_append_left _ hm
        · intro m hm
          exact List.mem_append_right _ (ih es hrest hr m hm)

/-- Decomposition of a non-raising `checkItem` run. -/
theorem checkItem_ok_decomp (allProps : List (String × PropDef))
    (typeDesc k : String) (v : Value) (e : List String)
    (h : checkItem allProps typeDesc k v = .ok e) :
    (dictLookup allProps k = none ∧ e = [undeclaredMsg k typeDesc]) ∨
      (∃ d numErrs lenErrs, dictLookup allProps k = some d ∧
        numCheck k d v = .ok numErrs ∧ lenCheck k d v = .ok lenErrs ∧
        e = kindCheck k d v ++ enumCheck k d v ++ numErrs ++ lenErrs) := by
  cases hl : dictLookup allProps k with
  | none =>
    simp only [checkItem, hl, Except.ok.injEq] at h
    left
    exact ⟨rfl, h.symm⟩
  | some d =>
    right
    cases hn : numCheck k d v with
    | error err =>
      simp only [checkItem, hl, hn] at h
      exact Except.noConfusion h
    | ok numErrs =>
      cases hlen : lenCheck k d v with
      | error err =>
        simp only [checkItem, hl, hn, hlen] at h
        exact Except.noConfusion h
      | ok lenErrs =>
        simp only [checkItem, hl, hn, hlen, Except.ok.injEq] at h
        exact ⟨d, numErrs, lenErrs, rfl, hn, hlen, h.symm⟩

/-- The accumulation property on exception-free runs: for a resolved entity
type (registry lookup succeeds, the inheritance walk terminates) and a
payload whose checks raise no exception, the returned violation list
contains, all together: every required-but-absent property's violation,
every undeclared payload key's violation, and every kind, enum, min, max,
minLength and maxLength violation of every declared payload key. On runs
where a check raises, no list is returned at all — see
the theorem on `validate_relationship` with the string-valued `confidence`
payload below. -/
theorem validation_accumulates_all_violations
    (reg : List (String × EntityTypeDef)) (t : String)
    (payload : List (String × Value)) (fuel : Nat)
    (tdef : EntityTypeDef) (allProps : List (String × PropDef))
    (inhErrs errs : List String) (b : Bool)
    (htd : dictLookup reg t = some tdef)
    (hwalk : inheritanceWalk reg fuel tdef [] [] = some (allProps, inhErrs))
    (hval : validate_entity reg t payload fuel = some (.ok (b, errs))) :
    (∀ k d, dictLookup allProps k = some d → d.required = true →
      dictLookup payload k = none → requiredMsg k ∈ errs) ∧
      (∀ k v, (k, v) ∈ payload → dictLookup allProps k = none →
        undeclaredMsg k ("type '" ++ t ++ "'") ∈ errs) ∧
      (∀ k v d e, (k, v) ∈ payload → dictLookup allProps k = some d →
        checkItem allProps ("type '" ++ t ++ "'") k v = .ok e →
        (∀ m ∈ kindCheck k d v, m ∈ errs) ∧
          (∀ es, d.enum = some es → es.any (fun x => valueBeq x v) = false →
            enumMsg k es ∈ errs) ∧
          (∀ n, d.type = some "number" → d.min = some n →
            pyCmpLt v n = .ok true → minMsg k n ∈ errs) ∧
          (∀ n, d.type = some "number" → d.max = some n →
            pyCmpGt v n = .ok true → maxMsg k n ∈ errs) ∧
          (∀ n l, d.type = some "string" → d.minLength = some n →
            pyLenVal v = .ok l → l < n → minLengthMsg k n ∈ errs) ∧
          (∀ n l, d.type = some "string" → d.maxLength = some n →
            pyLenVal v = .ok l → l > n → maxLengthMsg k n ∈ errs)) := by
  cases hitems : checkItems allProps ("type '" ++ t ++ "'") payload with
  | error err =>
    simp only [validate_entity, htd, hwalk, hitems] at hval
    exact Except.noConfusion (Option.some.inj hval)
  | ok itemErrs =>
    simp only [validate_entity, htd, hwalk, hitems, Option.some.injEq,
      Except.ok.injEq, Prod.mk.injEq] at hval
    obtain ⟨hb, herrs⟩ := hval
    subst herrs
    have hsub : ∀ k v e, (k, v) ∈ payload →
        checkItem allProps ("type '" ++ t ++ "'") k v = .ok e →
        ∀ m ∈ e,
          m ∈ (inhErrs ++ requiredErrors allProps payload) ++ itemErrs := by
      intro k v e hm hi m hme
      exact List.mem_append_right _
        (checkItems_mem allProps _ payload itemErrs k v e hm hitems hi m hme)
    refine ⟨?_, ?_, ?_⟩
    · intro k d hk hreq habs
      exact List.mem_append_left _ (List.mem_append_right _
        (requiredErrors_mem allProps payload k d hk hreq habs))
    · intro k v hm hnone
      have hi : checkItem allProps ("type '" ++ t ++ "'") k v =
          .ok [undeclaredMsg k ("type '" ++ t ++ "'")] := by
        simp only [checkItem, hnone]
      exact hsub k v _ hm hi _ (List.mem_singleton.mpr rfl)
    · intro k v d e hm hk hi
      rcases checkItem_ok_decomp allProps _ k v e hi with
        ⟨hn, _⟩ | ⟨d', nE, lE, hd', hnum, hlen, he⟩
      · rw [hk] at hn
        exact absurd hn (by simp)
      · have hdd : d = d' := by
          rw [hk] at hd'
          exact Option.some.inj hd'
        subst hdd
        subst he
        refine ⟨?_, ?_, ?_, ?_, ?_, ?_⟩
        · intro m hmk
          exact hsub k v _ hm hi m (by
            simp only [List.mem_append]
            exact Or.inl (Or.inl (Or.inl hmk)))
        · intro es hes hany
          refine hsub k v _ hm hi _ ?_
          have henum : enumCheck k d v = [enumMsg k es] := by
            simp [enumCheck, hes, hany]
          simp [henum]
        · intro n htype hmin hlt
          have h1 : minCheckE k d v = .ok [minMsg k n] := by
            simp [minCheckE, hmin, hlt]
          have hnumv : minMsg k n ∈ nE := by
            cases hmx : maxCheckE k d v with
            | error err => simp [numCheck, htype, h1, hmx] at hnum
            | ok e2 =>
              simp only [numCheck, htype, h1, hmx, beq_self_eq_true, if_true,
                Except.ok.injEq] at hnum
              rw [← hnum]
              exact List.mem_append_left _ (List.mem_singleton.mpr rfl)
          exact hsub k v _ hm hi _ (by
            simp only [List.mem_append]
            exact Or.inl (Or.inr hnumv))
        · intro n htype hmax hgt
          have h1 : maxCheckE k d v = .ok [maxMsg k n] := by
            simp [maxCheckE, hmax, hgt]
          have hnumv : maxMsg k n ∈ nE := by
            cases hmn : minCheckE k d v with
            | error err => simp [numCheck, htype, h1, hmn] at hnum
            | ok e1 =>
              simp only [numCheck, htype, h1, hmn, beq_self_eq_true, if_true,
                Except.ok.injEq] at hnum
              rw [← hnum]
              exact List.mem_append_right _ (List.mem_singleton.mpr rfl)
          exact hsub k v _ hm hi _ (by
            simp only [List.mem_append]
            exact Or.inl (Or.inr hnumv))
        · intro n l htype hminL hlen' hlt
          have h1 : minLengthCheckE k d v = .ok [minLengthMsg k n] := by
            simp [minLengthCheckE, hminL, hlen', hlt]
          have hlenv : minLengthMsg k n ∈ lE := by
            cases hmx : maxLengthCheckE k d v with
            | error err => simp [lenCheck, htype, h1, hmx] at hlen
            | ok e2 =>
              simp only [lenCheck, htype, h1, hmx, beq_self_eq_true, if_true,
                Except.ok.injEq] at hlen
              rw [← hlen]
              exact List.mem_append_left _ (List.mem_singleton.mpr rfl)
          exact hsub k v _ hm hi _ (by
            simp only [List.mem_append]
            exact Or.inr hlenv)
        · intro n l htype hmaxL hlen' hgt
          have h1 : maxLengthCheckE k d v = .ok [maxLengthMsg k n] := by
            simp [maxLengthCheckE, hmaxL, hlen', hgt]
          have hlenv : maxLengthMsg k n ∈ lE := by
            cases hmn : minLengthCheckE k d v with
            | error err => simp [lenCheck, htype, h1, hmn] at hlen
            | ok e1 =>
              simp only [lenCheck, htype, h1, hmn, beq_self_eq_true, if_true,
                Except.ok.injEq] at hlen
              rw [← hlen]
              exact List.mem_append_right _ (List.mem_singleton.mpr rfl)
          exact hsub k v _ hm hi _ (by
            simp only [List.mem_append]
            exact Or.inr hlenv)

/-- The accumulation property, applied: the missing-required, undeclared,
enum and kind violations all appear together in the single returned list. -/
theorem validation_accumulates_witness :
    validate_entity defaultEntityTypes "Concept" conceptDemoPayload 10 =
        some (.ok (false, conceptDemoErrors)) ∧
      requiredMsg "domain" ∈ conceptDemoErrors ∧
      undeclaredMsg "bogus" "type 'Concept'" ∈ conceptDemoErrors ∧
      enumMsg "tier" [Value.str "L1", Value.str "L2", Value.str "L3"] ∈
        conceptDemoErrors ∧
      kindMsg "name" "a string" ∈ conceptDemoErrors := by
  obtain ⟨hreq, hundecl, hdecl⟩ :=
    validation_accumulates_all_violations defaultEntityTypes "Concept"
      conceptDemoPayload 10
      { inherits := some "Entity",
        properties :=
          [ ("domain", { type := some "string", required := true }),
            ("tier",
              { type := some "string",
                enum := some [Value.str "L1", Value.str "L2", Value.str "L3"],
                required := true }) ] }
      conceptEffProps [] conceptDemoErrors false rfl rfl rfl
  refine ⟨rfl, ?_, ?_, ?_, ?_⟩
  · exact hreq "domain" _ rfl rfl rfl
  · exact hundecl "bogus" (Value.str "x") (by simp [conceptDemoPayload]) rfl
  · exact (hdecl "tier" (Value.str "L9") _ _ (by simp [conceptDemoPayload])
      rfl rfl).2.1 _ rfl rfl
  · exact (hdecl "name" (Value.num 5) _ _ (by simp [conceptDemoPayload])
      rfl rfl).1 _ (List.mem_singleton.mpr rfl)

/-- C7. Validation does not always return the accumulated violation list:
in the default registry, REPRESENTS declares `confidence` as a number with
bounds 0 and 1, so its own declaration assigns the payload value
`"high"` the kind violation "should be a number" (second conjunct) —
but the subsequent min-bound comparison `prop_value < prop_def["min"]`
(schema.py line 238) raises `TypeError` on the string, so validation aborts
and returns no `(is_valid, errors)` pair at all (first conjunct): the
already-detected violation is discarded instead of appearing in a returned
list, against the spec's "never short-circuits on first failure". -/
theorem validation_typeerror_discards_violations :
    validate_relationship defaultRelationshipTypes "REPRESENTS" "Symbol"
        "Concept" [("confidence", Value.str "high")] = .error .typeError ∧
      (dictLookup defaultRelationshipTypes "REPRESENTS").map
          (fun tdef => (dictLookup tdef.properties "confidence").map
            (fun d => kindCheck "confidence" d (Value.str "high"))) =
        some (some [kindMsg "confidence" "a number"]) :=
  ⟨rfl, rfl⟩

/-! ### C8: relationship creation endpoint checks -/

theorem validate_relationship_eq (rels : List (String × RelationshipTypeDef))
    (rt st tt : String) (props : List (String × Value))
    (rdef : RelationshipTypeDef) (iE : List String)
    (hlook : dictLookup rels rt = some rdef)
    (hitems : checkItems rdef.properties
      ("relationship type '" ++ rt ++ "'") props = .ok iE) :
    validate_relationship rels rt st tt props =
      .ok ((srcErrsOf rdef rt st ++ tgtErrsOf rdef rt tt ++
            requiredErrors rdef.properties props ++ iE).isEmpty,
        srcErrsOf rdef rt st ++ tgtErrsOf rdef rt tt ++
          requiredErrors rdef.properties props ++ iE) := by
  simp only [validate_relationship, hlook, hitems]

/-- C8. `create_relationship` issues the source existence read first and the
target existence read second, both before validation; a missing source ends
the operation after one read, a missing target after two, each with a
not-found failure and NO write; when both endpoints exist, validation runs
against their resolved types, a failing validation produces a structured
failure and no write, and when the resolved source type is outside the
relationship type's allowed source set the violation message spelling out
the allowed set is in the returned error list — still with no write. -/
theorem create_relationship_endpoint_checks
    (rels : List (String × RelationshipTypeDef))
    (db : String → Option (List String)) (s rt t : String)
    (props? : Option (List (String × Value))) (newId : String) :
    (db s = none →
      create_relationship rels db s rt t props? newId =
        { result := { success := false,
                      message := "Source entity with ID '" ++ s ++ "' not found" },
          reads := [srcExistsQuery s], writes := [] }) ∧
      (∀ ls, db s = some ls → db t = none →
        create_relationship rels db s rt t props? newId =
          { result := { success := false,
                        message := "Target entity with ID '" ++ t ++ "' not found" },
            reads := [srcExistsQuery s, tgtExistsQuery t], writes := [] }) ∧
      (∀ ls lt, db s = some ls → db t = some lt →
        (create_relationship rels db s rt t props? newId).reads =
          [srcExistsQuery s, tgtExistsQuery t]) ∧
      (∀ ls lt errs, db s = some ls → db t = some lt →
        validate_relationship rels rt (firstNonEntityLabel ls)
            (firstNonEntityLabel lt) (props?.getD []) = .ok (false, errs) →
        (create_relationship rels db s rt t props? newId).result =
            { success := false, errors := errs,
              message := "Relationship validation failed" } ∧
          (create_relationship rels db s rt t props? newId).writes = []) ∧
      (∀ ls lt rdef allowed itemErrs, db s = some ls → db t = some lt →
        dictLookup rels rt = some rdef →
        rdef.source_types = some allowed →
        allowed.contains (firstNonEntityLabel ls) = false →
        checkItems rdef.properties ("relationship type '" ++ rt ++ "'")
            (props?.getD []) = .ok itemErrs →
        sourceNotAllowedMsg (firstNonEntityLabel ls) rt allowed ∈
            (create_relationship rels db s rt t props? newId).result.errors ∧
          (create_relationship rels db s rt t props? newId).result.success
            = false ∧
          (create_relationship rels db s rt t props? newId).writes = []) := by
  refine ⟨?_, ?_, ?_, ?_, ?_⟩
  · intro h
    simp [create_relationship, h]
  · intro ls hs ht
    simp [create_relationship, hs, ht]
  · intro ls lt hs ht
    simp only [create_relationship, hs, ht]
    cases hv : validate_relationship rels rt (firstNonEntityLabel ls)
        (firstNonEntityLabel lt) (props?.getD []) with
    | error e => rfl
    | ok p =>
      obtain ⟨b, errs⟩ := p
      cases b <;> rfl
  · intro ls lt errs hs ht hv
    simp only [create_relationship, hs, ht, hv]
    exact ⟨rfl, rfl⟩
  · intro ls lt rdef allowed itemErrs hs ht hlook hsty hcont hitems
    have hsrc : srcErrsOf rdef rt (firstNonEntityLabel ls) =
        [sourceNotAllowedMsg (firstNonEntityLabel ls) rt allowed] := by
      simp only [srcErrsOf, hsty]
      refine if_neg ?_
      rw [hcont]
      simp
    have hvr := validate_relationship_eq rels rt (firstNonEntityLabel ls)
      (firstNonEntityLabel lt) (props?.getD []) rdef itemErrs hlook hitems
    rw [hsrc] at hvr
    have hne : (([sourceNotAllowedMsg (firstNonEntityLabel ls) rt allowed] ++
          tgtErrsOf rdef rt (firstNonEntityLabel lt) ++
          requiredErrors rdef.properties (props?.getD []) ++ itemErrs)).isEmpty
        = false := by
      simp
    rw [hne] at hvr
    simp only [create_relationship, hs, ht, hvr]
    refine ⟨?_, rfl, rfl⟩
    exact List.mem_append_left _ (List.mem_append_left _
      (List.mem_append_left _ (List.mem_singleton.mpr rfl)))

/-- C8, applied: a REPRESENTS edge from a Concept source (allowed sources:
Symbol only) is rejected with the message listing the allowed set and no
write; against an empty store the source not-found failure also writes
nothing and issues only the one read. -/
theorem create_relationship_checks_witness :
    sourceNotAllowedMsg "Concept" "REPRESENTS" ["Symbol"] ∈
        (create_relationship defaultRelationshipTypes demoDb "s1" "REPRESENTS"
          "t1" none "rid-1").result.errors ∧
      (create_relationship defaultRelationshipTypes demoDb "s1" "REPRESENTS"
          "t1" none "rid-1").result.success = false ∧
      (create_relationship defaultRelationshipTypes demoDb "s1" "REPRESENTS"
          "t1" none "rid-1").writes = [] ∧
      (create_relationship defaultRelationshipTypes (fun _ => none) "s1"
          "REPRESENTS" "t1" none "rid-1").writes = [] := by
  obtain ⟨h1, _, _, _, h5⟩ :=
    create_relationship_endpoint_checks defaultRelationshipTypes demoDb "s1"
      "REPRESENTS" "t1" none "rid-1"
  obtain ⟨hm, hsucc, hw⟩ :=
    h5 ["Concept"] ["Concept"] _ ["Symbol"] [] rfl rfl rfl rfl rfl rfl
  obtain ⟨h1', _, _, _, _⟩ :=
    create_relationship_endpoint_checks defaultRelationshipTypes (fun _ => none)
      "s1" "REPRESENTS" "t1" none "rid-1"
  exact ⟨hm, hsucc, hw, by rw [h1' rfl]⟩

/-! ### C9: tier projection -/

theorem projectFold_keys_mono (tier : String) (props : List (String × Value)) :
    ∀ acc a, a ∈ dictKeys acc →
      a ∈ dictKeys (props.foldl (projectStep tier) acc) := by
  induction props with
  | nil => intro acc a h; exact h
  | cons p rest ih =>
    intro acc a h
    rw [List.foldl_cons]
    refine ih _ a ?_
    rw [projectStep]
    split
    · exact (mem_dictKeys_insert _ _ _ _).mpr (Or.inl h)
    · split
      · exact h
      · exact (mem_dictKeys_insert _ _ _ _).mpr (Or.inl h)

theorem projectFold_inserts_suffixed (tier : String)
    (props : List (String × Value)) (k : String) (v : Value)
    (hks : pyEndsWith k (tierSuffix tier) = true) :
    ∀ acc, (k, v) ∈ props →
      stripTier tier k ∈ dictKeys (props.foldl (projectStep tier) acc) := by
  induction props with
  | nil => intro acc h; simp at h
  | cons p rest ih =>
    intro acc h
    rw [List.foldl_cons]
    rcases List.mem_cons.mp h with hfst | hrest
    · subst hfst
      refine projectFold_keys_mono tier rest _ _ ?_
      rw [projectStep]
      simp only [hks, if_true]
      exact (mem_dictKeys_insert _ _ _ _).mpr (Or.inr rfl)
    · exact ih _ hrest

theorem projectFold_inserts_plain (tier : String)
    (props : List (String × Value)) (k : String) (v : Value)
    (htier : tier ∈ validTiers) (hks : hasTierSuffix k = false) :
    ∀ acc, (k, v) ∈ props →
      k ∈ dictKeys (props.foldl (projectStep tier) acc) := by
  have hnotier : pyEndsWith k (tierSuffix tier) = false := by
    rcases hend : pyEndsWith k (tierSuffix tier) with _ | _
    · rfl
    · exact absurd (List.any_eq_true.mpr ⟨tier, htier, hend⟩)
        (by rw [show (validTiers.any fun t => pyEndsWith k (tierSuffix t)) =
          hasTierSuffix k from rfl, hks]; simp)
  induction props with
  | nil => intro acc h; simp at h
  | cons p rest ih =>
    intro acc h
    rw [List.foldl_cons]
    rcases List.mem_cons.mp h with hfst | hrest
    · subst hfst
      refine projectFold_keys_mono tier rest _ _ ?_
      rw [projectStep]
      simp only [hnotier, hks]
      simp only [Bool.false_eq_true, if_false]
      exact (mem_dictKeys_insert _ _ _ _).mpr (Or.inr rfl)
    · exact ih _ hrest

theorem projectTier_drops_other_suffix (tier : String)
    (l1 l2 : List (String × Value)) (k : String) (v : Value)
    (h1 : pyEndsWith k (tierSuffix tier) = false) (h2 : hasTierSuffix k = true) :
    projectTier tier (l1 ++ (k, v) :: l2) = projectTier tier (l1 ++ l2) := by
  rw [projectTier, projectTier, List.foldl_append, List.foldl_append,
    List.foldl_cons]
  have hstep : projectStep tier (l1.foldl (projectStep tier) []) (k, v) =
      l1.foldl (projectStep tier) [] := by
    rw [projectStep]
    simp [h1, h2]
  rw [hstep]

theorem dictInsert_append_of_not_mem (m : List (String × α)) (k : String)
    (v : α) (h : k ∉ dictKeys m) : dictInsert m k v = m ++ [(k, v)] := by
  induction m with
  | nil => rfl
  | cons p rest ih =>
    rw [dictKeys_cons] at h
    simp only [List.mem_cons, not_or] at h
    have hp : p.1 ≠ k := fun he => h.1 he.symm
    simp [dictInsert, hp, ih h.2]

theorem dictKeys_append (a b : List (String × α)) :
    dictKeys (a ++ b) = dictKeys a ++ dictKeys b :=
  List.map_append _ _ _

theorem hasTierSuffix_false_endsWith (tier k : String)
    (htier : tier ∈ validTiers) (hks : hasTierSuffix k = false) :
    pyEndsWith k (tierSuffix tier) = false := by
  rcases hend : pyEndsWith k (tierSuffix tier) with _ | _
  · rfl
  · exact absurd (List.any_eq_true.mpr ⟨tier, htier, hend⟩)
      (by rw [show (validTiers.any fun t => pyEndsWith k (tierSuffix t)) =
        hasTierSuffix k from rfl, hks]; simp)

theorem projectFold_plain_fixed (tier : String) (props : List (String × Value))
    (htier : tier ∈ validTiers) :
    ∀ acc, (∀ p ∈ props, hasTierSuffix p.1 = false) →
      (dictKeys props).Nodup →
      (∀ p ∈ props, p.1 ∉ dictKeys acc) →
      props.foldl (projectStep tier) acc = acc ++ props := by
  induction props with
  | nil => intro acc _ _ _; simp
  | cons p rest ih =>
    obtain ⟨k0, v0⟩ := p
    intro acc hall hnd hdisj
    rw [dictKeys_cons, List.nodup_cons] at hnd
    rw [List.foldl_cons]
    have hsuf : hasTierSuffix k0 = false := hall _ (List.mem_cons_self _ _)
    have hnotier : pyEndsWith k0 (tierSuffix tier) = false :=
      hasTierSuffix_false_endsWith tier k0 htier hsuf
    have hstep : projectStep tier acc (k0, v0) = acc ++ [(k0, v0)] := by
      rw [projectStep]
      simp only [hnotier, hsuf, Bool.false_eq_true, if_false]
      exact dictInsert_append_of_not_mem acc k0 v0
        (hdisj _ (List.mem_cons_self _ _))
    rw [hstep, ih _ (fun q hq => hall q (List.mem_cons_of_mem _ hq)) hnd.2
      (fun q hq => ?_), List.append_assoc]
    · rfl
    · rw [dictKeys_append]
      simp only [List.mem_append, not_or]
      refine ⟨hdisj q (List.mem_cons_of_mem _ hq), ?_⟩
      simp only [dictKeys, List.map, List.mem_singleton]
      intro he
      have hq1 : q.1 ∈ dictKeys rest := List.mem_map_of_mem Prod.fst hq
      rw [he] at hq1
      exact hnd.1 hq1

theorem projectFold_keys_nodup (tier : String) (props : List (String × Value)) :
    ∀ acc, (dictKeys acc).Nodup →
      (dictKeys (props.foldl (projectStep tier) acc)).Nodup := by
  induction props with
  | nil => intro acc h; exact h
  | cons p rest ih =>
    intro acc h
    rw [List.foldl_cons]
    refine ih _ ?_
    rw [projectStep]
    split
    · exact dictKeys_insert_nodup _ _ _ h
    · split
      · exact h
      · exact dictKeys_insert_nodup _ _ _ h

theorem projectFold_keys_unsuffixed (tier : String)
    (props : List (String × Value))
    (hstack : ∀ p ∈ props, pyEndsWith p.1 (tierSuffix tier) = true →
      hasTierSuffix (stripTier tier p.1) = false) :
    ∀ acc, (∀ a ∈ dictKeys acc, hasTierSuffix a = false) →
      ∀ a ∈ dictKeys (props.foldl (projectStep tier) acc),
        hasTierSuffix a = false := by
  induction props with
  | nil => intro acc hacc a ha; exact hacc a ha
  | cons p rest ih =>
    intro acc hacc a ha
    rw [List.foldl_cons] at ha
    refine ih (fun q hq h => hstack q (List.mem_cons_of_mem _ hq) h) _ ?_ a ha
    intro a' ha'
    rw [projectStep] at ha'
    by_cases hend : pyEndsWith p.1 (tierSuffix tier) = true
    · simp only [hend, if_true] at ha'
      rcases (mem_dictKeys_insert _ _ _ _).mp ha' with h1 | h2
      · exact hacc a' h1
      · exact h2 ▸ hstack p (List.mem_cons_self _ _) hend
    · simp only [hend, if_false] at ha'
      by_cases hsuf : hasTierSuffix p.1 = true
      · simp only [hsuf, if_true] at ha'
        exact hacc a' ha'
      · simp only [hsuf, if_false] at ha'
        rcases (mem_dictKeys_insert _ _ _ _).mp ha' with h1 | h2
        · exact hacc a' h1
        · rw [h2]
          exact Bool.eq_false_iff.mpr hsuf

theorem projectTier_idem_of_no_stacked (tier : String)
    (props : List (String × Value)) (htier : tier ∈ validTiers)
    (hstack : ∀ p ∈ props, pyEndsWith p.1 (tierSuffix tier) = true →
      hasTierSuffix (stripTier tier p.1) = false) :
    projectTier tier (projectTier tier props) = projectTier tier props := by
  have hkeys : ∀ a ∈ dictKeys (projectTier tier props), hasTierSuffix a = false :=
    projectFold_keys_unsuffixed tier props hstack [] (by simp [dictKeys])
  have hnd : (dictKeys (projectTier tier props)).Nodup :=
    projectFold_keys_nodup tier props [] (by simp [dictKeys])
  have hfix := projectFold_plain_fixed tier (projectTier tier props) htier []
    (fun p hp => hkeys p.1 (List.mem_map_of_mem Prod.fst hp)) hnd
    (by simp [dictKeys])
  simpa [projectTier] using hfix

theorem normTier_mem (tier : String) : normTier tier ∈ validTiers := by
  rw [normTier]
  split
  · next h => exact (List.elem_iff).mp h
  · simp [validTiers]

/-- C9 counterexample. The claim says the tier projection is idempotent for a
fixed tier. A property name carrying two stacked tier suffixes refutes it:
for tier L1 and the single property `a_l2_l1`, one projection yields
`a_l2` (the L1 suffix stripped), but projecting that view again DROPS the
key entirely (it now ends in the other tier's suffix), so the second
projection differs from the first. -/
theorem tier_projection_not_idempotent :
    projectTier "L1" [("a_l2_l1", Value.str "v")] = [("a_l2", Value.str "v")] ∧
      projectTier "L1" (projectTier "L1" [("a_l2_l1", Value.str "v")]) = [] ∧
      get_entity_with_tier_props "L1"
          (get_entity_with_tier_props "L1" [("a_l2_l1", Value.str "v")]) ≠
        get_entity_with_tier_props "L1" [("a_l2_l1", Value.str "v")] := by
  refine ⟨rfl, rfl, ?_⟩
  intro h
  have h1 : get_entity_with_tier_props "L1" [("a_l2_l1", Value.str "v")] =
      [("a_l2", Value.str "v")] := rfl
  rw [h1] at h
  have h2 : get_entity_with_tier_props "L1" [("a_l2", Value.str "v")] =
      ([] : List (String × Value)) := rfl
  rw [h2] at h
  exact List.noConfusion h

/-- C9 amended: an unrecognized tier normalizes to L1; a key carrying the
requested tier's suffix is included under its stripped base name, a key
carrying a DIFFERENT tier's suffix contributes nothing to the view, and an
unsuffixed key is included unchanged; and the projection is idempotent for a
fixed tier PROVIDED no stripped base name itself still ends in a tier suffix
(no stacked tier suffixes) — without that proviso idempotence fails. -/
theorem tier_projection_behaviour (tier : String)
    (props : List (String × Value)) :
    (validTiers.contains tier = false → normTier tier = "L1") ∧
      (validTiers.contains tier = true → normTier tier = tier) ∧
      get_entity_with_tier_props tier props = projectTier (normTier tier) props ∧
      (∀ k v, (k, v) ∈ props → pyEndsWith k (tierSuffix (normTier tier)) = true →
        stripTier (normTier tier) k ∈
          dictKeys (get_entity_with_tier_props tier props)) ∧
      (∀ k v, (k, v) ∈ props → hasTierSuffix k = false →
        k ∈ dictKeys (get_entity_with_tier_props tier props)) ∧
      (∀ l1 l2 k v, props = l1 ++ (k, v) :: l2 →
        pyEndsWith k (tierSuffix (normTier tier)) = false → hasTierSuffix k = true →
        get_entity_with_tier_props tier props =
          projectTier (normTier tier) (l1 ++ l2)) ∧
      ((∀ p ∈ props, pyEndsWith p.1 (tierSuffix (normTier tier)) = true →
          hasTierSuffix (stripTier (normTier tier) p.1) = false) →
        projectTier (normTier tier) (get_entity_with_tier_props tier props) =
          get_entity_with_tier_props tier props) := by
  refine ⟨?_, ?_, rfl, ?_, ?_, ?_, ?_⟩
  · intro h
    rw [normTier]
    exact if_neg (by rw [h]; simp)
  · intro h
    rw [normTier]
    exact if_pos h
  · intro k v hm hend
    exact projectFold_inserts_suffixed (normTier tier) props k v hend [] hm
  · intro k v hm hsuf
    exact projectFold_inserts_plain (normTier tier) props k v
      (normTier_mem tier) hsuf [] hm
  · intro l1 l2 k v hsplit h1 h2
    rw [show get_entity_with_tier_props tier props =
      projectTier (normTier tier) props from rfl, hsplit]
    exact projectTier_drops_other_suffix (normTier tier) l1 l2 k v h1 h2
  · intro hstack
    exact projectTier_idem_of_no_stacked (normTier tier) props
      (normTier_mem tier) hstack

/-- C9 amended, applied at tier `L9` (normalizes to L1) and a three-property
entity: `name_l1` is included as `name`, `plain` passes through, the
L2-suffixed `x_l2` contributes nothing, and the (stack-free) view is a fixed
point of a second projection. -/
theorem tier_projection_witness :
    normTier "L9" = "L1" ∧
      "name" ∈ dictKeys (get_entity_with_tier_props "L9"
        [("name_l1", Value.str "n"), ("x_l2", Value.str "w"),
          ("plain", Value.str "p")]) ∧
      "plain" ∈ dictKeys (get_entity_with_tier_props "L9"
        [("name_l1", Value.str "n"), ("x_l2", Value.str "w"),
          ("plain", Value.str "p")]) ∧
      get_entity_with_tier_props "L9"
          [("name_l1", Value.str "n"), ("x_l2", Value.str "w"),
            ("plain", Value.str "p")] =
        projectTier (normTier "L9")
          ([("name_l1", Value.str "n")] ++ [("plain", Value.str "p")]) ∧
      projectTier (normTier "L9") (get_entity_with_tier_props "L9"
          [("name_l1", Value.str "n"), ("x_l2", Value.str "w"),
            ("plain", Value.str "p")]) =
        get_entity_with_tier_props "L9"
          [("name_l1", Value.str "n"), ("x_l2", Value.str "w"),
            ("plain", Value.str "p")] := by
  obtain ⟨h1, _, _, h4, h5, h6, h7⟩ :=
    tier_projection_behaviour "L9"
      [("name_l1", Value.str "n"), ("x_l2", Value.str "w"),
        ("plain", Value.str "p")]
  refine ⟨h1 rfl, ?_, ?_, ?_, ?_⟩
  · exact h4 "name_l1" (Value.str "n") (by simp) rfl
  · exact h5 "plain" (Value.str "p") (by simp) rfl
  · exact h6 [("name_l1", Value.str "n")] [("plain", Value.str "p")]
      "x_l2" (Value.str "w") rfl rfl rfl
  · exact h7 (by decide)

/-! ### C1: query text versus parameter map -/

/-- C1 counterexample. The claim says only identifiers validated against the
type registry are interpolated into query text. `get_relationship` puts the
raw caller-supplied relationship type name into the text — here a string in
NO registry — and the entity listing does the same with the caller's entity
type label; no builder consults a registry at all. -/
theorem raw_identifier_reaches_query_text :
    (get_relationship_query "s1" "EVIL_TYPE" "t1").text =
        grTextA ++ "EVIL_TYPE" ++ grTextB ∧
      dictLookup defaultRelationshipTypes "EVIL_TYPE" = none ∧
      (list_entities_queries (some "EvilLabel") [] 0 20).1.text =
        "MATCH (e:Entity:EvilLabel) RETURN e SKIP 0 LIMIT 20" ∧
      dictLookup defaultEntityTypes "EvilLabel" = none :=
  ⟨rfl, rfl, rfl, rfl⟩

/-- C1 amended: every user-controlled property value, endpoint id and search
term reaches the built query only through the named-parameter map, and the
query TEXT is a function of the request's identifiers and shape alone
(property keys, type names, term count, pagination numbers) — but those
identifiers, including caller-supplied entity type names, relationship type
names and property keys, are interpolated into the text raw, with no
validation against the type registry. -/
theorem query_builder_values_via_params :
    (∀ et props page ps,
      (list_entities_queries et props page ps).1.params =
        props.map fun p => ("prop_" ++ p.1, p.2)) ∧
      (∀ et props page ps,
        (list_entities_queries et props page ps).1.text =
            list_entities_text et (props.map Prod.fst) page ps ∧
          (list_entities_queries et props page ps).2 =
            list_entities_count_text et (props.map Prod.fst)) ∧
      (∀ et props,
        (get_entity_by_properties_query et props).params =
            (props.map fun p => ("prop_" ++ p.1, p.2)) ∧
          (get_entity_by_properties_query et props).text =
            get_entity_by_properties_text et (props.map Prod.fst)) ∧
      (∀ s rt t, get_relationship_query s rt t =
        ⟨grTextA ++ rt ++ grTextB,
          [("source_id", Value.str s), ("target_id", Value.str t)]⟩) ∧
      (∀ s rt t,
        (delete_relationship_queries s rt t).2.text = grTextA ++ rt ++ drTextB) ∧
      (∀ eid rt dir page ps,
        (list_relationships_queries (some eid) rt dir page ps).1.params =
          if eid == "" then [] else [("entity_id", Value.str eid)]) ∧
      (∀ e1 e2 rt dir page ps, e1 ≠ "" → e2 ≠ "" →
        (list_relationships_queries (some e1) rt dir page ps).1.text =
          (list_relationships_queries (some e2) rt dir page ps).1.text) ∧
      (∀ s t s' t' d rts,
        (find_path_query s t d rts).text = (find_path_query s' t' d rts).text ∧
          (find_path_query s t d rts).params =
            [("source_id", Value.str s), ("target_id", Value.str t)] ∧
          (find_paths_query s t d rts).text = (find_paths_query s' t' d rts).text) ∧
      (∀ q ets lim,
        (search_entities_query q ets lim).params =
            ((pySplitWhitespace q).enum.map fun p =>
              ("term" ++ toString p.1, Value.str p.2)) ∧
          (search_entities_query q ets lim).text =
            search_entities_text ets (pySplitWhitespace q).length lim) := by
  refine ⟨?_, ?_, ?_, fun s rt t => rfl, fun s rt t => rfl, ?_, ?_,
    fun s t s' t' d rts => ⟨rfl, rfl, rfl⟩, ?_⟩
  · intro et props page ps
    cases props with
    | nil => rfl
    | cons p rest => rfl
  · intro et props page ps
    cases props with
    | nil => exact ⟨rfl, rfl⟩
    | cons p rest =>
      constructor
      · simp [list_entities_queries, list_entities_text, entityWhereParts,
          List.map_map, listSkip, Function.comp_def]
      · simp [list_entities_queries, list_entities_count_text, entityWhereParts,
          List.map_map, Function.comp_def]
  · intro et props
    refine ⟨rfl, ?_⟩
    cases props with
    | nil => rfl
    | cons p rest =>
      simp [get_entity_by_properties_query, get_entity_by_properties_text,
        entityWhereParts, List.map_map, Function.comp_def]
  · intro eid rt dir page ps
    by_cases h : eid == ""
    · simp [list_relationships_queries, h]
    · simp only [Bool.not_eq_true] at h
      simp [list_relationships_queries, h]
  · intro e1 e2 rt dir page ps h1 h2
    have hb1 : (e1 == "") = false := beq_eq_false_iff_ne.mpr h1
    have hb2 : (e2 == "") = false := beq_eq_false_iff_ne.mpr h2
    simp [list_relationships_queries, hb1, hb2]
  · intro q ets lim
    refine ⟨rfl, ?_⟩
    simp [search_entities_query, search_entities_text, ← List.enum_map_fst,
      List.map_map, Function.comp_def]

/-- C1 amended, applied: two payloads with the same keys but different values
produce the same entity-list query text; two different entity ids produce
the same relationship-list text; the EVIL relationship type string sits raw
in the built text. -/
theorem query_builder_values_witness :
    (list_entities_queries (some "Concept") [("name", Value.str "A")] 0 20).1.text =
        (list_entities_queries (some "Concept") [("name", Value.num 7)] 0 20).1.text ∧
      (list_entities_queries (some "Concept") [("name", Value.str "A")] 0 20).1.params =
        [("prop_name", Value.str "A")] ∧
      (list_relationships_queries (some "e1") (some "REL") (some "both") 0 20).1.text =
        (list_relationships_queries (some "e2") (some "REL") (some "both") 0 20).1.text ∧
      (search_entities_query "spectral method" none 100).params =
        [("term0", Value.str "spectral"), ("term1", Value.str "method")] := by
  obtain ⟨h1, h2, _, _, _, _, h7, _, h9⟩ := query_builder_values_via_params
  refine ⟨?_, ?_, ?_, ?_⟩
  · rw [(h2 (some "Concept") [("name", Value.str "A")] 0 20).1,
      (h2 (some "Concept") [("name", Value.num 7)] 0 20).1]
    rfl
  · rw [h1 (some "Concept") [("name", Value.str "A")] 0 20]
    rfl
  · exact h7 "e1" "e2" (some "REL") (some "both") 0 20 (by decide) (by decide)
  · rw [(h9 "spectral method" none 100).1]
    rfl

/-! ### C10: payload preservation and id generation -/

/-- C10 counterexample. The claim says an id is generated for a new entity
only AFTER validation has succeeded. `create_entity` inserts the generated
id into the payload without any validation at all: for a payload the schema
rejects (missing required `domain`, `tier`, `id`), the returned property
mapping nevertheless carries the fresh id. -/
theorem entity_id_assigned_without_validation :
    dictLookup (create_entity "Concept" [("name", Value.str "Derivative")]
        none "gid-9").properties "id" = some (Value.str "gid-9") ∧
      validate_entity defaultEntityTypes "Concept"
          [("name", Value.str "Derivative")] 10 =
        some (.ok (false,
          [requiredMsg "domain", requiredMsg "tier", requiredMsg "id"])) :=
  ⟨rfl, rfl⟩

/-- C10 amended: validation never changes the payload — on every failing
path of `create_relationship` the outcome is independent of the drawn id and
no write is issued, and on the success path the payload reaches the store
exactly as the caller supplied it plus the generated `id` key and the two
endpoint parameters (every other key reads back unchanged). Entity creation,
however, inserts a generated id into the payload unconditionally, without
any validation step. -/
theorem payload_preserved_and_id_discipline :
    (∀ rels (db : String → Option (List String)) s rt t props? n1 n2,
      (create_relationship rels db s rt t props? n1).result.success = false →
      create_relationship rels db s rt t props? n1 =
          create_relationship rels db s rt t props? n2 ∧
        (create_relationship rels db s rt t props? n1).writes = []) ∧
      (∀ rels (db : String → Option (List String)) s rt t props? newId,
        (create_relationship rels db s rt t props? newId).result.success = true →
        (create_relationship rels db s rt t props? newId).result.properties =
            dictInsert (props?.getD []) "id" (Value.str newId) ∧
          (create_relationship rels db s rt t props? newId).writes.map
              QueryCall.params =
            [dictUpdate (dictInsert (props?.getD []) "id" (Value.str newId))
              [("source_id", Value.str s), ("target_id", Value.str t)]] ∧
          (∀ k, k ≠ "id" →
            dictLookup (create_relationship rels db s rt t props?
                newId).result.properties k =
              dictLookup (props?.getD []) k)) ∧
      (∀ et props prov newId,
        (create_entity et props prov newId).success = true ∧
          (dictContains props "id" = false →
            (create_entity et props prov newId).properties =
              dictInsert props "id" (Value.str newId)) ∧
          (dictContains props "id" = true →
            (create_entity et props prov newId).properties = props)) := by
  refine ⟨?_, ?_, ?_⟩
  · intro rels db s rt t props? n1 n2 h
    cases hs : db s with
    | none => exact ⟨by simp [create_relationship, hs], by simp [create_relationship, hs]⟩
    | some ls =>
      cases ht : db t with
      | none =>
        exact ⟨by simp [create_relationship, hs, ht],
          by simp [create_relationship, hs, ht]⟩
      | some lt =>
        cases hv : validate_relationship rels rt (firstNonEntityLabel ls)
            (firstNonEntityLabel lt) (props?.getD []) with
        | error e =>
          exact ⟨by simp [create_relationship, hs, ht, hv],
            by simp [create_relationship, hs, ht, hv]⟩
        | ok p =>
          obtain ⟨b, errs⟩ := p
          cases b with
          | true => simp [create_relationship, hs, ht, hv] at h
          | false =>
            exact ⟨by simp [create_relationship, hs, ht, hv],
              by simp [create_relationship, hs, ht, hv]⟩
  · intro rels db s rt t props? newId h
    cases hs : db s with
    | none => simp [create_relationship, hs] at h
    | some ls =>
      cases ht : db t with
      | none => simp [create_relationship, hs, ht] at h
      | some lt =>
        cases hv : validate_relationship rels rt (firstNonEntityLabel ls)
            (firstNonEntityLabel lt) (props?.getD []) with
        | error e => simp [create_relationship, hs, ht, hv] at h
        | ok p =>
          obtain ⟨b, errs⟩ := p
          cases b with
          | false => simp [create_relationship, hs, ht, hv] at h
          | true =>
            refine ⟨by simp [create_relationship, hs, ht, hv],
              by simp [create_relationship, hs, ht, hv], ?_⟩
            intro k hk
            have hprops : (create_relationship rels db s rt t props?
                newId).result.properties =
                dictInsert (props?.getD []) "id" (Value.str newId) := by
              simp [create_relationship, hs, ht, hv]
            rw [hprops, dictLookup_insert]
            exact if_neg (fun he => hk he.symm)
  · intro et props prov newId
    refine ⟨rfl, ?_, ?_⟩
    · intro h
      simp [create_entity, h]
    · intro h
      simp [create_entity, h]

/-- C10 amended, applied: on the valid REPRESENTS edge the stored payload is
exactly the caller's (empty) payload plus the generated id and endpoint
parameters; on an empty store the outcome does not depend on the drawn id
and writes nothing; `create_entity` injects the id with no validation. -/
theorem payload_preserved_witness :
    (create_relationship defaultRelationshipTypes demoDbOk "s1" "REPRESENTS"
          "t1" none "rid-1").result.properties =
        dictInsert ((none : Option (List (String × Value))).getD [])
          "id" (Value.str "rid-1") ∧
      (create_relationship defaultRelationshipTypes demoDbOk "s1" "REPRESENTS"
          "t1" none "rid-1").writes.map QueryCall.params =
        [dictUpdate (dictInsert ((none : Option (List (String × Value))).getD [])
            "id" (Value.str "rid-1"))
          [("source_id", Value.str "s1"), ("target_id", Value.str "t1")]] ∧
      create_relationship defaultRelationshipTypes (fun _ => none) "s1"
          "REPRESENTS" "t1" none "rid-1" =
        create_relationship defaultRelationshipTypes (fun _ => none) "s1"
          "REPRESENTS" "t1" none "rid-2" ∧
      (create_entity "Concept" [("name", Value.str "Derivative")] none
          "gid-1").properties =
        dictInsert [("name", Value.str "Derivative")] "id" (Value.str "gid-1") := by
  obtain ⟨h1, h2, h3⟩ := payload_preserved_and_id_discipline
  obtain ⟨hp, hw, _⟩ := h2 defaultRelationshipTypes demoDbOk "s1" "REPRESENTS"
    "t1" none "rid-1" rfl
  refine ⟨hp, hw, ?_, ?_⟩
  · exact (h1 defaultRelationshipTypes (fun _ => none) "s1" "REPRESENTS" "t1"
      none "rid-1" "rid-2" rfl).1
  · exact (h3 "Concept" [("name", Value.str "Derivative")] none "gid-1").2.1 rfl

end KSMCP
